import Mathlib

/-!
Shallow embedding of the metric-computation core of the Hypeon backend
(`src/metrics/*.py`): niche normalization, the per-platform signal
extractors, the weighted aggregation, and the composite metrics
(growth rate, sentiment, engagement, hype, trend index), together with
theorems checking the natural-language specification against it.

Modelling choices:
* pandas `DataFrame`s become structures holding a list of typed rows plus
  one Boolean per optionally-present column (`'col' in df.columns`); a
  missing cell (NaN) is an `Option` that is `none`.
* floating point arithmetic is embedded in `ℚ`; the float literal `1e-9`
  becomes the rational `1/1000000000`.
* `np.log1p` is an external transcendental function; the embedding takes
  it as an explicit parameter `log1p : ℚ → ℚ`, and theorems that need its
  shape assume only monotonicity/positivity facts the real `log1p` has.
* `TextBlob(...).sentiment.polarity` is an external lexicon; it is taken
  as a parameter `polarity : String → Option ℚ`, `none` standing for a
  row whose analysis raises (the source wraps each call in `try/except`).
-/

namespace Hypeon

/-- Mean of a list of rationals, `series.mean()`; only ever applied to
nonempty lists in the embedded code paths. -/
def listMean (xs : List ℚ) : ℚ := xs.sum / (xs.length : ℚ)

/-- Embeds `series.min()` over a nonempty series (0 as a dummy for the empty one,
which the embedded paths never consult). -/
def seriesMin : List ℚ → ℚ
  | [] => 0
  | x :: xs => xs.foldl min x

/-- Embeds `series.max()` over a nonempty series (0 as a dummy for the empty one,
which the embedded paths never consult). -/
def seriesMax : List ℚ → ℚ
  | [] => 0
  | x :: xs => xs.foldl max x

/-- Insertion into an ascendingly sorted list, driven by a Boolean
comparator. -/
def insertSorted (le : α → α → Bool) (a : α) : List α → List α
  | [] => [a]
  | b :: bs => if le a b then a :: b :: bs else b :: insertSorted le a bs

/-- Insertion sort with a Boolean comparator (ascending); stands in for
pandas' key-sorted `groupby` output order. -/
def sortWith (le : α → α → Bool) : List α → List α
  | [] => []
  | a :: as => insertSorted le a (sortWith le as)

/-- Lexicographic comparison on character lists (Python string `<`). -/
def charListLt : List Char → List Char → Bool
  | _, [] => false
  | [], _ :: _ => true
  | a :: as, b :: bs => if a < b then true else if b < a then false else charListLt as bs

/-- String order used by pandas when sorting group keys / mode values
(lexicographic on code points, as in Python). -/
def strLe (a b : String) : Bool := charListLt a.data b.data || a == b

/-- Python `str.lower()`. -/
def pyLower (s : String) : String := ⟨s.data.map Char.toLower⟩

/-- Python `str.strip()`: remove leading and trailing whitespace. -/
def pyStrip (s : String) : String :=
  ⟨((s.data.dropWhile Char.isWhitespace).reverse.dropWhile Char.isWhitespace).reverse⟩

/-- Embeds `df.groupby(key).mean()` over already-extracted `(key, value)` pairs:
the distinct keys in ascending order, each with the mean of its group. -/
def groupbyMean (pairs : List (String × ℚ)) : List (String × ℚ) :=
  let keys := sortWith strLe ((pairs.map Prod.fst).dedup)
  keys.map (fun k => (k, listMean ((pairs.filter (fun p => p.1 == k)).map Prod.snd)))

/-- Embeds `series.mode()`: the values with maximal frequency, sorted ascending
(NaN cells are dropped by the caller before this point). -/
def seriesMode (xs : List String) : List String :=
  let vals := sortWith strLe xs.dedup
  let maxCount := (vals.map (fun v => xs.count v)).foldl max 0
  vals.filter (fun v => xs.count v == maxCount)

/-- Synonym table `NICHE_SYNONYMS` of `growth_rate.py`. -/
def NICHE_SYNONYMS : List (String × String) :=
  [("carpets", "carpet"), ("curtains", "curtain"), ("kitchen gadgets", "kitchen_gadgets")]

/-- Embeds `normalize_niche` of `growth_rate.py`: strip + lowercase + synonym
lookup falling back to the stripped-lowercased string. -/
def normalize_niche (niche : String) : String :=
  let nicheLower := pyLower (pyStrip niche)
  (((NICHE_SYNONYMS.find? (fun p => p.1 == nicheLower)).map Prod.snd)).getD nicheLower

/-- Ordering on pair keys, for `groupby(['niche','video_id'])` output order. -/
def pairLe (a b : String × String) : Bool :=
  charListLt a.1.data b.1.data || (a.1 == b.1 && strLe a.2 b.2)

/-- Embeds `df.groupby([k1,k2]).mean()` over `(key-pair, value)` pairs. -/
def groupbyMean2 (pairs : List ((String × String) × ℚ)) : List ((String × String) × ℚ) :=
  let keys := sortWith pairLe ((pairs.map Prod.fst).dedup)
  keys.map (fun k => (k, listMean ((pairs.filter (fun p => p.1 == k)).map Prod.snd)))

/-- Embeds `pd.merge(left, right, on=key, how='outer')` (sort=False): every left
row joined with each matching right row (or a NaN right part), followed by
the unmatched right rows. -/
def mergeOuter (left : List (String × α)) (right : List (String × β)) :
    List (String × Option α × Option β) :=
  (left.flatMap (fun l =>
    let ms := right.filter (fun r => r.1 == l.1)
    if ms.isEmpty then [(l.1, some l.2, none)]
    else ms.map (fun r => (l.1, some l.2, some r.2)))) ++
  ((right.filter (fun r => (left.find? (fun l => l.1 == r.1)).isNone)).map
    (fun r => (r.1, none, some r.2)))

/-! ## Data model

One structure per platform dataset.  A Boolean `has…` field per column
whose presence the source checks (`'col' in df.columns`); an `Option` per
cell, `none` standing for a NaN cell. -/

/-- A row of the TikTok dataset. -/
structure TiktokRow where
  niche : Option String := none
  video_id : Option String := none
  views : Option ℚ := none
  likes : Option ℚ := none
  comments : Option ℚ := none
  shares : Option ℚ := none
  description : Option String := none
  caption_clean : Option String := none

/-- The TikTok dataset (`tiktok_df`). -/
structure TiktokDF where
  hasNiche : Bool := false
  hasVideoId : Bool := false
  hasViews : Bool := false
  hasLikes : Bool := false
  hasComments : Bool := false
  hasShares : Bool := false
  hasDescription : Bool := false
  hasCaptionClean : Bool := false
  rows : List TiktokRow := []

/-- A row of the Reddit posts dataset. -/
structure RedditPostRow where
  niche : Option String := none
  upvotes : Option ℚ := none
  comments_count : Option ℚ := none
  title : Option String := none
  post_body : Option String := none

/-- The Reddit posts dataset (`reddit_posts_df`). -/
structure RedditPostsDF where
  hasNiche : Bool := false
  hasUpvotes : Bool := false
  hasCommentsCount : Bool := false
  hasTitle : Bool := false
  hasPostBody : Bool := false
  rows : List RedditPostRow := []

/-- A row of the Reddit comments dataset. -/
structure RedditCommentRow where
  comment_text : Option String := none

/-- The Reddit comments dataset (`reddit_comments_df`). -/
structure RedditCommentsDF where
  hasCommentText : Bool := false
  rows : List RedditCommentRow := []

/-- A row of the Amazon products dataset. -/
structure AmazonRow where
  reviews_count : Option ℚ := none
  rating : Option ℚ := none
  product_id : Option String := none
  asin : Option String := none
  title : Option String := none

/-- The Amazon products dataset (`amazon_products_df`). -/
structure AmazonDF where
  hasReviewsCount : Bool := false
  hasRating : Bool := false
  hasProductId : Bool := false
  hasAsin : Bool := false
  hasTitle : Bool := false
  rows : List AmazonRow := []

/-- A row of the Shopify variants dataset. -/
structure ShopifyRow where
  stock_status : Option String := none
  product_id : Option String := none
  sku : Option String := none
  title : Option String := none

/-- The Shopify variants dataset (`shopify_variants_df`). -/
structure ShopifyDF where
  hasStockStatus : Bool := false
  hasProductId : Bool := false
  hasSku : Bool := false
  hasTitle : Bool := false
  rows : List ShopifyRow := []

/-- The `dataframes` dictionary passed to every metric function (a key
absent from the dict defaults to an empty frame, so a caller models that
by passing a default-empty structure). -/
structure Dataframes where
  shopify : ShopifyDF := {}
  amazon : AmazonDF := {}
  tiktok : TiktokDF := {}
  redditPosts : RedditPostsDF := {}
  redditComments : RedditCommentsDF := {}

/-! ## `metrics/engagement.py` -/

namespace Engagement

/-- Embeds `normalize` of `engagement.py`: min-max to [0,1]; a constant series
maps to 0.5 everywhere.  (An empty series falls into the else branch in
the source, since `NaN == NaN` is false, and stays empty.) -/
def normalize (xs : List ℚ) : List ℚ :=
  if xs.isEmpty then []
  else if seriesMax xs = seriesMin xs then List.replicate xs.length (1/2)
  else xs.map (fun x => (x - seriesMin xs) / (seriesMax xs - seriesMin xs))

/-- Per-row TikTok engagement rate
`(likes+comments+shares) / views.replace(0, nan)`, with non-finite and
NaN results coerced to 0 (`replace([inf,-inf],0).fillna(0)`). -/
def tiktokRate (r : TiktokRow) : ℚ :=
  match r.likes, r.comments, r.shares, r.views with
  | some l, some c, some s, some v => if v = 0 then 0 else (l + c + s) / v
  | _, _, _, _ => 0

/-- Embeds `tiktok_engagement`: per-video engagement averaged per video then per
niche.  The source's `try/except` turns a missing required column
(`likes`/`comments`/`shares`/`views`, or `video_id` for the groupby) into
an empty result; rows whose `niche` or `video_id` cell is NaN are dropped
by the pandas groupby. -/
def tiktok_engagement (df : TiktokDF) : List (String × ℚ) :=
  if df.rows.isEmpty then []
  else if !(df.hasLikes && df.hasComments && df.hasShares && df.hasViews) then []
  else if !df.hasNiche then
    [("overall", listMean (df.rows.map tiktokRate))]
  else if !df.hasVideoId then []
  else
    let keyed := df.rows.filterMap (fun r =>
      match r.niche, r.video_id with
      | some n, some v => some ((pyLower (pyStrip n), v), tiktokRate r)
      | _, _ => none)
    let videoAvg := groupbyMean2 keyed
    groupbyMean (videoAvg.map (fun p => (p.1.1, p.2)))

/-- Per-row Reddit engagement `(upvotes + comments)/(comments + 1)` with
NaN/non-finite results coerced to 0; an absent column stands in as a zero
series. -/
def redditRate (df : RedditPostsDF) (r : RedditPostRow) : ℚ :=
  let u := if df.hasUpvotes then r.upvotes else some 0
  let c := if df.hasCommentsCount then r.comments_count else some 0
  match u, c with
  | some u, some c => if c + 1 = 0 then 0 else (u + c) / (c + 1)
  | _, _ => 0

/-- Embeds `reddit_engagement`: per-post engagement averaged per niche; a missing
`niche` column makes every row belong to the synthetic niche `overall`. -/
def reddit_engagement (df : RedditPostsDF) : List (String × ℚ) :=
  if df.rows.isEmpty then []
  else
    let keyed := df.rows.filterMap (fun r =>
      if df.hasNiche then
        match r.niche with
        | some n => some (pyLower (pyStrip n), redditRate df r)
        | none => none
      else some ("overall", redditRate df r))
    groupbyMean keyed

/-- The TikTok engagement table re-keyed by stripped-lowercased niche
(the `str.strip().str.lower()` pass of `engagement`). -/
def tiktokKeyed (tiktok_df : TiktokDF) : List (String × ℚ) :=
  (tiktok_engagement tiktok_df).map (fun p => (pyLower (pyStrip p.1), p.2))

/-- The Reddit engagement table re-keyed by stripped-lowercased niche. -/
def redditKeyed (reddit_df : RedditPostsDF) : List (String × ℚ) :=
  (reddit_engagement reddit_df).map (fun p => (pyLower (pyStrip p.1), p.2))

/-- The merged engagement table of `engagement` after `fillna(0)`:
`(niche, tiktok_eng, reddit_eng)` rows. -/
def combinedRows (tiktok_df : TiktokDF) (reddit_df : RedditPostsDF) :
    List (String × ℚ × ℚ) :=
  (mergeOuter (tiktokKeyed tiktok_df) (redditKeyed reddit_df)).map
    (fun m => (m.1, m.2.1.getD 0, m.2.2.getD 0))

/-- The `engagement_final` column before its final normalization: the
70/30 blend of the two per-platform normalized columns. -/
def engagementFinals (tiktok_df : TiktokDF) (reddit_df : RedditPostsDF) : List ℚ :=
  ((normalize ((combinedRows tiktok_df reddit_df).map (fun m => m.2.1))).zip
    (normalize ((combinedRows tiktok_df reddit_df).map (fun m => m.2.2)))).map
    (fun p => 0.7 * p.1 + 0.3 * p.2)

/-- Embeds `engagement`: outer-merge the two platform engagement tables on
niche, fill the gaps with 0, min-max-normalize each platform column,
blend 70/30, and min-max-normalize the blend. -/
def engagement (tiktok_df : TiktokDF) (reddit_df : RedditPostsDF) : List (String × ℚ) :=
  if (tiktok_engagement tiktok_df).isEmpty && (reddit_engagement reddit_df).isEmpty then []
  else
    ((combinedRows tiktok_df reddit_df).map (fun m => m.1)).zip
      (normalize (engagementFinals tiktok_df reddit_df))

end Engagement

/-! ## `metrics/growth_rate.py` -/

/-- Python truthiness of an optional string argument (`if not niche_filter`
treats both `None` and `""` as absent). -/
def truthy : Option String → Bool
  | some s => !s.isEmpty
  | none => false

/-- Embeds `str(cell)` on a possibly-NaN string cell (`str(nan) = "nan"`). -/
def cellStr (o : Option String) : String := o.getD "nan"

/-- The in-stock vocabulary of the Shopify extractors. -/
def inStockVocab : List String := ["in stock", "instock", "available"]

/-- Embeds `str(x).lower() in ['in stock', 'instock', 'available']`. -/
def isInStock (c : Option String) : Bool := inStockVocab.contains (pyLower (cellStr c))

/-- Per-row TikTok total engagement: the sum of the `views`, `likes`,
`comments`, `shares` columns that are present, each `fillna(0)`. -/
def tiktokTotalEngagement (df : TiktokDF) (r : TiktokRow) : ℚ :=
  (if df.hasViews then r.views.getD 0 else 0) +
  (if df.hasLikes then r.likes.getD 0 else 0) +
  (if df.hasComments then r.comments.getD 0 else 0) +
  (if df.hasShares then r.shares.getD 0 else 0)

/-- The weighted-aggregation loop shared by `calculate_growth_rate`,
`calculate_sentiment_score` and `calculate_social_enrichment`:
`Σ(w_p * s_p) / Σ(w_p)` over the platforms that produced a score, 0 when
the weight total is not positive. -/
def weightedAggregate (weights : String → ℚ) (results : List (String × ℚ)) : ℚ :=
  let totalScore := (results.map (fun p => p.2 * weights p.1)).sum
  let totalWeight := (results.map (fun p => weights p.1)).sum
  if 0 < totalWeight then totalScore / totalWeight else 0

/-- The static growth-rate weight table (`weights.get(p, 0)`). -/
def growthWeights : String → ℚ := fun p =>
  if p == "shopify" then 0.25
  else if p == "amazon" then 0.35
  else if p == "tiktok" then 0.30
  else if p == "reddit" then 0.10
  else 0

/-- The static sentiment weight table. -/
def sentimentWeights : String → ℚ := fun p =>
  if p == "amazon" then 0.50
  else if p == "tiktok" then 0.30
  else if p == "reddit" then 0.20
  else 0

/-- The static social-enrichment weight table (70% TikTok, 30% Reddit). -/
def socialWeights : String → ℚ := fun p =>
  if p == "tiktok" then 0.7
  else if p == "reddit" then 0.3
  else 0

/-- Embeds `calculate_social_enrichment`: blend of TikTok log-scaled engagement
and Reddit discussion-volume saturation for one niche, renormalized over
whichever of the two platforms produced a score. -/
def calculate_social_enrichment (log1p : ℚ → ℚ) (dataframes : Dataframes)
    (niche_filter : Option String) : ℚ :=
  let tiktokScores : List (String × ℚ) :=
    if !dataframes.tiktok.rows.isEmpty then
      let filtered :=
        if truthy niche_filter && dataframes.tiktok.hasNiche then
          dataframes.tiktok.rows.filter (fun r =>
            normalize_niche (cellStr r.niche) == normalize_niche (niche_filter.getD ""))
        else dataframes.tiktok.rows
      if !filtered.isEmpty then
        let te := filtered.map (tiktokTotalEngagement dataframes.tiktok)
        let maxE := seriesMax te
        if 0 < maxE then [("tiktok", listMean (te.map (fun x => log1p x / log1p maxE)))]
        else []
      else []
    else []
  let redditScores : List (String × ℚ) :=
    if !dataframes.redditPosts.rows.isEmpty || !dataframes.redditComments.rows.isEmpty then
      let postsFiltered :=
        if truthy niche_filter && !dataframes.redditPosts.rows.isEmpty &&
            dataframes.redditPosts.hasNiche then
          dataframes.redditPosts.rows.filter (fun r =>
            normalize_niche (cellStr r.niche) == normalize_niche (niche_filter.getD ""))
        else dataframes.redditPosts.rows
      let d : ℚ := (postsFiltered.length : ℚ) + (dataframes.redditComments.rows.length : ℚ)
      if 0 < d then [("reddit", d / (d + 100))] else []
    else []
  let scores := tiktokScores ++ redditScores
  if !scores.isEmpty then weightedAggregate socialWeights scores else 0

/-- One output row of the Shopify product-level growth table. -/
structure ShopifyGrowthRecord where
  product_id : String
  title : String
  commerce_score : ℚ
  social_enrichment : ℚ
  growth_rate : ℚ
  deriving DecidableEq

/-- One output row of the Amazon product-level growth table. -/
structure AmazonGrowthRecord where
  product_id : String
  title : String
  asin : String
  commerce_score : ℚ
  social_enrichment : ℚ
  growth_rate : ℚ
  deriving DecidableEq

/-- Embeds `calculate_product_level_shopify_growth`.  An absent (`None`/empty)
niche argument is answered with an empty table after a log warning — the
function returns normally, it does not raise. -/
def calculate_product_level_shopify_growth (log1p : ℚ → ℚ) (dataframes : Dataframes)
    (niche_filter : Option String) : List ShopifyGrowthRecord :=
  if !truthy niche_filter then []
  else
    let df := dataframes.shopify
    if df.rows.isEmpty || !df.hasStockStatus then []
    else
      let social := calculate_social_enrichment log1p dataframes niche_filter
      let recs := ((List.range df.rows.length).zip df.rows).map (fun ir =>
        let r := ir.2
        let commerce : ℚ := if isInStock r.stock_status then 1 else 0
        let pid : String :=
          if df.hasProductId then cellStr r.product_id
          else if df.hasSku then cellStr r.sku
          else if df.hasTitle then cellStr r.title
          else toString ir.1
        let title : String := if df.hasTitle then cellStr r.title else pid
        ⟨pid, title, commerce, social, 0.8 * commerce + 0.2 * social⟩)
      (sortWith (fun a b => decide (b.growth_rate ≤ a.growth_rate)) recs).take 100

/-- Embeds `calculate_product_level_amazon_growth`.  Same absent-niche behavior
as the Shopify variant: empty table, no exception. -/
def calculate_product_level_amazon_growth (log1p : ℚ → ℚ) (dataframes : Dataframes)
    (niche_filter : Option String) : List AmazonGrowthRecord :=
  if !truthy niche_filter then []
  else
    let df := dataframes.amazon
    if df.rows.isEmpty then []
    else
      let social := calculate_social_enrichment log1p dataframes niche_filter
      let commerce : AmazonRow → ℚ :=
        if df.hasReviewsCount then
          let rc := df.rows.map (fun r => r.reviews_count.getD 0)
          let mx := seriesMax rc
          if 0 < mx then fun r => log1p (r.reviews_count.getD 0) / log1p mx
          else fun _ => 0
        else if df.hasRating then
          fun r => min 1 (max 0 ((r.rating.getD 3 - 3) / 2))
        else fun _ => 0
      let recs := ((List.range df.rows.length).zip df.rows).map (fun ir =>
        let r := ir.2
        let pid : String :=
          if df.hasProductId then cellStr r.product_id
          else if df.hasAsin then cellStr r.asin
          else if df.hasTitle then cellStr r.title
          else toString ir.1
        let title : String := if df.hasTitle then cellStr r.title else pid
        let asin : String := if df.hasAsin then cellStr r.asin else pid
        ⟨pid, title, asin, commerce r, social, 0.8 * commerce r + 0.2 * social⟩)
      (sortWith (fun a b => decide (b.growth_rate ≤ a.growth_rate)) recs).take 100

/-- The single niche label of the niche-level growth/sentiment output:
the first mode of the raw (un-normalized) `niche` column of the Reddit
posts frame when that frame is non-empty and has the column, `"Overall"`
otherwise. -/
def nicheLabel (posts : RedditPostsDF) : String :=
  if !posts.rows.isEmpty && posts.hasNiche then
    match seriesMode (posts.rows.filterMap (fun r => r.niche)) with
    | [] => "Overall"
    | m :: _ => m
  else "Overall"

/-- One niche-level growth record. -/
structure GrowthRecord where
  niche : String
  growth_rate : ℚ
  deriving DecidableEq

/-- The Shopify block of `calculate_growth_rate`: in-stock fraction. -/
def growthShopify (dataframes : Dataframes) : List (String × ℚ) :=
  if !dataframes.shopify.rows.isEmpty && dataframes.shopify.hasStockStatus then
    [("shopify", listMean (dataframes.shopify.rows.map
      (fun r => if isInStock r.stock_status then 1 else 0)))]
  else []

/-- The reviews-based candidate Amazon growth value (`amazon_growth` after
the first inner `if` of the Amazon block): 0 unless the reviews column is
present with a positive maximum. -/
def amazonG0 (log1p : ℚ → ℚ) (dataframes : Dataframes) : ℚ :=
  if dataframes.amazon.hasReviewsCount then
    if 0 < seriesMax (dataframes.amazon.rows.map (fun r => r.reviews_count.getD 0)) then
      listMean ((dataframes.amazon.rows.map (fun r => r.reviews_count.getD 0)).map
        (fun x => log1p x /
          log1p (seriesMax (dataframes.amazon.rows.map (fun r => r.reviews_count.getD 0)))))
    else 0
  else 0

/-- The Amazon block of `calculate_growth_rate`: log-scaled review
activity with an unclipped rating fallback, clamped below at 0. -/
def growthAmazon (log1p : ℚ → ℚ) (dataframes : Dataframes) : List (String × ℚ) :=
  if !dataframes.amazon.rows.isEmpty then
    let g0 := amazonG0 log1p dataframes
    let g1 : ℚ :=
      if dataframes.amazon.hasRating then
        if g0 = 0 then
          (listMean (dataframes.amazon.rows.map (fun r => r.rating.getD 3)) - 3) / 2
        else g0
      else g0
    [("amazon", max 0 g1)]
  else []

/-- The TikTok block of `calculate_growth_rate`: log-scaled total
engagement. -/
def growthTiktok (log1p : ℚ → ℚ) (dataframes : Dataframes) : List (String × ℚ) :=
  if !dataframes.tiktok.rows.isEmpty then
    if 0 < seriesMax (dataframes.tiktok.rows.map (tiktokTotalEngagement dataframes.tiktok)) then
      [("tiktok", listMean ((dataframes.tiktok.rows.map (tiktokTotalEngagement dataframes.tiktok)).map
        (fun x => log1p x /
          log1p (seriesMax (dataframes.tiktok.rows.map (tiktokTotalEngagement dataframes.tiktok))))))]
    else []
  else []

/-- The Reddit block of `calculate_growth_rate`: discussion-volume
saturation. -/
def growthReddit (dataframes : Dataframes) : List (String × ℚ) :=
  if !dataframes.redditPosts.rows.isEmpty || !dataframes.redditComments.rows.isEmpty then
    [("reddit",
      ((dataframes.redditPosts.rows.length : ℚ) + (dataframes.redditComments.rows.length : ℚ)) /
      ((dataframes.redditPosts.rows.length : ℚ) + (dataframes.redditComments.rows.length : ℚ) + 100))]
  else []

/-- The per-platform growth sub-scores of `calculate_growth_rate`
(the `results` list before weighting). -/
def growthResults (log1p : ℚ → ℚ) (dataframes : Dataframes) : List (String × ℚ) :=
  growthShopify dataframes ++ growthAmazon log1p dataframes ++
  growthTiktok log1p dataframes ++ growthReddit dataframes

/-- Embeds `calculate_growth_rate`: the per-platform sub-scores combined with the
renormalized growth weight table, output as a single record keyed by
`nicheLabel` (empty when no platform produced a score). -/
def calculate_growth_rate (log1p : ℚ → ℚ) (dataframes : Dataframes) : List GrowthRecord :=
  let results := growthResults log1p dataframes
  if !results.isEmpty then
    [⟨nicheLabel dataframes.redditPosts, weightedAggregate growthWeights results⟩]
  else []

/-! ## `metrics/sentiment_score.py` -/

/-- One niche-level sentiment record. -/
structure SentimentRecord where
  niche : String
  sentiment_score : ℚ
  deriving DecidableEq

/-- The Amazon block of `calculate_sentiment_score`: mean star rating
rescaled so 3 is neutral. -/
def sentimentAmazon (dataframes : Dataframes) : List (String × ℚ) :=
  if !dataframes.amazon.rows.isEmpty && dataframes.amazon.hasRating then
    [("amazon", (listMean (dataframes.amazon.rows.map (fun r => r.rating.getD 3)) - 3) / 2)]
  else []

/-- The TikTok text-polarity values (`caption_sentiments`): the polarity
of each non-NaN description (falling back to `caption_clean`), skipping
rows whose analysis raises. -/
def tiktokSentimentVals (polarity : String → Option ℚ) (dataframes : Dataframes) : List ℚ :=
  if dataframes.tiktok.hasDescription then
    (dataframes.tiktok.rows.filterMap (fun r => r.description)).filterMap polarity
  else if dataframes.tiktok.hasCaptionClean then
    (dataframes.tiktok.rows.filterMap (fun r => r.caption_clean)).filterMap polarity
  else []

/-- The TikTok block of `calculate_sentiment_score`. -/
def sentimentTiktok (polarity : String → Option ℚ) (dataframes : Dataframes) :
    List (String × ℚ) :=
  if !dataframes.tiktok.rows.isEmpty then
    if !(tiktokSentimentVals polarity dataframes).isEmpty then
      [("tiktok", listMean (tiktokSentimentVals polarity dataframes))]
    else []
  else []

/-- The Reddit text-polarity values (`reddit_sentiments`): post titles,
then post bodies, then comment texts. -/
def redditSentimentVals (polarity : String → Option ℚ) (dataframes : Dataframes) : List ℚ :=
  (if !dataframes.redditPosts.rows.isEmpty then
    (if dataframes.redditPosts.hasTitle then
      (dataframes.redditPosts.rows.filterMap (fun r => r.title)).filterMap polarity
    else []) ++
    (if dataframes.redditPosts.hasPostBody then
      (dataframes.redditPosts.rows.filterMap (fun r => r.post_body)).filterMap polarity
    else [])
  else []) ++
  (if !dataframes.redditComments.rows.isEmpty && dataframes.redditComments.hasCommentText then
    (dataframes.redditComments.rows.filterMap (fun r => r.comment_text)).filterMap polarity
  else [])

/-- The Reddit block of `calculate_sentiment_score`. -/
def sentimentReddit (polarity : String → Option ℚ) (dataframes : Dataframes) :
    List (String × ℚ) :=
  if !(redditSentimentVals polarity dataframes).isEmpty then
    [("reddit", listMean (redditSentimentVals polarity dataframes))]
  else []

/-- The per-platform sentiment sub-scores of `calculate_sentiment_score`
(the `sentiments` list before weighting).  `polarity` models
`TextBlob(str(text)).sentiment.polarity`, `none` standing for a row whose
analysis raises and is skipped. -/
def sentimentResults (polarity : String → Option ℚ) (dataframes : Dataframes) :
    List (String × ℚ) :=
  sentimentAmazon dataframes ++ sentimentTiktok polarity dataframes ++
  sentimentReddit polarity dataframes

/-- Embeds `calculate_sentiment_score`: per-platform text/rating sentiments
combined with the renormalized sentiment weight table, output as a single
record keyed by `nicheLabel`. -/
def calculate_sentiment_score (polarity : String → Option ℚ) (dataframes : Dataframes) :
    List SentimentRecord :=
  let sentiments := sentimentResults polarity dataframes
  if !sentiments.isEmpty then
    [⟨nicheLabel dataframes.redditPosts, weightedAggregate sentimentWeights sentiments⟩]
  else []

/-! ## `metrics/trend_index.py` -/

/-- One record of the trend-index output. -/
structure TrendRecord where
  niche : String
  growth_rate : ℚ
  sentiment_score : ℚ
  trend_index : ℚ
  deriving DecidableEq

/-- One row of the intermediate table of `calculate_trend_index` after the
two outer merges and `fillna(0)`. -/
structure TrendMergedRow where
  niche : String
  growth_rate : ℚ
  sentiment_score : ℚ
  engagement_final : ℚ
  deriving DecidableEq

/-- The first outer merge of `calculate_trend_index`: growth × sentiment
on niche. -/
def trendM1 (log1p : ℚ → ℚ) (polarity : String → Option ℚ) (dataframes : Dataframes) :
    List (String × Option ℚ × Option ℚ) :=
  mergeOuter ((calculate_growth_rate log1p dataframes).map (fun g => (g.niche, g.growth_rate)))
    ((calculate_sentiment_score polarity dataframes).map (fun s => (s.niche, s.sentiment_score)))

/-- The second outer merge of `calculate_trend_index`: (growth ×
sentiment) × engagement on niche. -/
def trendM2 (log1p : ℚ → ℚ) (polarity : String → Option ℚ) (dataframes : Dataframes) :
    List (String × Option (Option ℚ × Option ℚ) × Option ℚ) :=
  mergeOuter ((trendM1 log1p polarity dataframes).map (fun m => (m.1, m.2)))
    (Engagement.engagement dataframes.tiktok dataframes.redditPosts)

/-- The intermediate table of `calculate_trend_index`: growth, sentiment
and engagement outer-joined on niche with NaNs filled by 0 (`fillna(0)`). -/
def trendMergedRows (log1p : ℚ → ℚ) (polarity : String → Option ℚ)
    (dataframes : Dataframes) : List TrendMergedRow :=
  (trendM2 log1p polarity dataframes).map (fun m =>
    ⟨m.1, (m.2.1.getD (none, none)).1.getD 0, (m.2.1.getD (none, none)).2.getD 0,
      m.2.2.getD 0⟩)

/-- Embeds `calculate_trend_index`: requires all three metric tables non-empty,
then computes `0.35*growth + 0.25*engagement + 0.25*((sentiment+1)/2) +
0.15*hype_score` per merged row with the constant placeholder
`hype_score = 0.5`, scales by 100 and clips to [0, 100]. -/
def calculate_trend_index (log1p : ℚ → ℚ) (polarity : String → Option ℚ)
    (dataframes : Dataframes) : List TrendRecord :=
  if !(calculate_growth_rate log1p dataframes).isEmpty &&
     !(calculate_sentiment_score polarity dataframes).isEmpty &&
     !(Engagement.engagement dataframes.tiktok dataframes.redditPosts).isEmpty then
    (trendMergedRows log1p polarity dataframes).map (fun row =>
      ⟨row.niche, row.growth_rate, row.sentiment_score,
        min 100 (max 0 ((0.35 * row.growth_rate + 0.25 * row.engagement_final +
          0.25 * ((row.sentiment_score + 1) / 2) + 0.15 * (0.5 : ℚ)) * 100))⟩)
  else []

/-! ## `metrics/hype.py` -/

namespace Hype

/-- Embeds `normalize` of `hype.py`: `0.2 + 0.8 * (x - min) / (max - min + 1e-9)`
elementwise (this is the module's own epsilon normalizer, distinct from
`Engagement.normalize`). -/
def normalize (xs : List ℚ) : List ℚ :=
  xs.map (fun x => 0.2 + 0.8 * ((x - seriesMin xs) / (seriesMax xs - seriesMin xs + 1 / 1000000000)))

/-- One row of the merged engagement × sentiment table of
`calculate_hype_score` after `fillna(0)`.  The source's niche-validity
filters (`notna() & (niche != 0)`) are identities here: every niche the
typed extractors produce is a non-null string, and a string never equals
the integer 0 in pandas. -/
def hypeMergedRows (polarity : String → Option ℚ) (tiktok_df : TiktokDF)
    (reddit_df : RedditPostsDF) (amazon_df : AmazonDF) : List (String × ℚ × ℚ) :=
  let engage := Engagement.engagement tiktok_df reddit_df
  let dataframes : Dataframes :=
    { tiktok := tiktok_df, amazon := amazon_df, redditPosts := reddit_df }
  let sent := calculate_sentiment_score polarity dataframes
  (mergeOuter engage (sent.map (fun s => (s.niche, s.sentiment_score)))).map
    (fun m => (m.1, m.2.1.getD 0, m.2.2.getD 0))

/-- The `hype_score_raw` column: `0.6*engagement_final + 0.8*sentiment`
per merged row. -/
def hypeRaws (polarity : String → Option ℚ) (tiktok_df : TiktokDF)
    (reddit_df : RedditPostsDF) (amazon_df : AmazonDF) : List ℚ :=
  (hypeMergedRows polarity tiktok_df reddit_df amazon_df).map
    (fun r => 0.6 * r.2.1 + 0.8 * r.2.2)

/-- Embeds `calculate_hype_score`: `raw = 0.6*engagement + 0.8*sentiment` per
niche, rescaled by the module's epsilon normalizer and sorted descending.
(The unused `shopify_df` parameter of the source is omitted.) -/
def calculate_hype_score (polarity : String → Option ℚ) (tiktok_df : TiktokDF)
    (reddit_df : RedditPostsDF) (amazon_df : AmazonDF) : List (String × ℚ) :=
  sortWith (fun a b => decide (b.2 ≤ a.2))
    (((hypeMergedRows polarity tiktok_df reddit_df amazon_df).zip
      (normalize (hypeRaws polarity tiktok_df reddit_df amazon_df))).map
      (fun p => (p.1.1, p.2)))

end Hype

/-! ## Helper lemmas -/

theorem foldl_min_le_init {α : Type*} [LinearOrder α] (l : List α) (a : α) : l.foldl min a ≤ a := by
  induction l generalizing a with
  | nil => simp
  | cons x xs ih => exact le_trans (ih (min a x)) (min_le_left a x)

theorem foldl_min_le_mem {α : Type*} [LinearOrder α] (l : List α) (a x : α) (hx : x ∈ l) : l.foldl min a ≤ x := by
  induction l generalizing a with
  | nil => simp at hx
  | cons y ys ih =>
    rcases List.mem_cons.mp hx with h | h
    · subst h
      exact le_trans (foldl_min_le_init ys (min a x)) (min_le_right a x)
    · exact ih (min a y) h

theorem init_le_foldl_max {α : Type*} [LinearOrder α] (l : List α) (a : α) : a ≤ l.foldl max a := by
  induction l generalizing a with
  | nil => simp
  | cons x xs ih => exact le_trans (le_max_left a x) (ih (max a x))

theorem mem_le_foldl_max {α : Type*} [LinearOrder α] (l : List α) (a x : α) (hx : x ∈ l) : x ≤ l.foldl max a := by
  induction l generalizing a with
  | nil => simp at hx
  | cons y ys ih =>
    rcases List.mem_cons.mp hx with h | h
    · subst h
      exact le_trans (le_max_right a x) (init_le_foldl_max ys (max a x))
    · exact ih (max a y) h

theorem foldl_min_mem {α : Type*} [LinearOrder α] (l : List α) (a : α) : l.foldl min a = a ∨ l.foldl min a ∈ l := by
  induction l generalizing a with
  | nil => simp
  | cons x xs ih =>
    rcases ih (min a x) with h | h
    · rcases min_cases a x with ⟨he, _⟩ | ⟨he, _⟩
      · exact Or.inl (by rw [List.foldl_cons, h, he])
      · exact Or.inr (by rw [List.foldl_cons, h, he]; exact List.mem_cons_self x xs)
    · exact Or.inr (List.mem_cons_of_mem x h)

theorem foldl_max_mem {α : Type*} [LinearOrder α] (l : List α) (a : α) : l.foldl max a = a ∨ l.foldl max a ∈ l := by
  induction l generalizing a with
  | nil => simp
  | cons x xs ih =>
    rcases ih (max a x) with h | h
    · rcases max_cases a x with ⟨he, _⟩ | ⟨he, _⟩
      · exact Or.inl (by rw [List.foldl_cons, h, he])
      · exact Or.inr (by rw [List.foldl_cons, h, he]; exact List.mem_cons_self x xs)
    · exact Or.inr (List.mem_cons_of_mem x h)

theorem seriesMin_le (xs : List ℚ) (x : ℚ) (hx : x ∈ xs) : seriesMin xs ≤ x := by
  cases xs with
  | nil => simp at hx
  | cons y ys =>
    rcases List.mem_cons.mp hx with h | h
    · subst h; exact foldl_min_le_init ys x
    · exact foldl_min_le_mem ys y x h

theorem le_seriesMax (xs : List ℚ) (x : ℚ) (hx : x ∈ xs) : x ≤ seriesMax xs := by
  cases xs with
  | nil => simp at hx
  | cons y ys =>
    rcases List.mem_cons.mp hx with h | h
    · subst h; exact init_le_foldl_max ys x
    · exact mem_le_foldl_max ys y x h

theorem seriesMin_mem (xs : List ℚ) (h : xs ≠ []) : seriesMin xs ∈ xs := by
  cases xs with
  | nil => exact absurd rfl h
  | cons y ys =>
    show List.foldl min y ys ∈ y :: ys
    rcases foldl_min_mem ys y with he | he
    · rw [he]; exact List.mem_cons_self y ys
    · exact List.mem_cons_of_mem y he

theorem seriesMax_mem (xs : List ℚ) (h : xs ≠ []) : seriesMax xs ∈ xs := by
  cases xs with
  | nil => exact absurd rfl h
  | cons y ys =>
    show List.foldl max y ys ∈ y :: ys
    rcases foldl_max_mem ys y with he | he
    · rw [he]; exact List.mem_cons_self y ys
    · exact List.mem_cons_of_mem y he

theorem seriesMin_le_seriesMax (xs : List ℚ) (h : xs ≠ []) : seriesMin xs ≤ seriesMax xs := by
  cases xs with
  | nil => exact absurd rfl h
  | cons y ys =>
    exact le_trans (seriesMin_le (y :: ys) y (List.mem_cons_self y ys))
      (le_seriesMax (y :: ys) y (List.mem_cons_self y ys))

/-- A list whose max equals its min is constant, and conversely. -/
theorem seriesMax_eq_seriesMin_iff (xs : List ℚ) (h : xs ≠ []) :
    seriesMax xs = seriesMin xs ↔ ∀ x ∈ xs, ∀ y ∈ xs, x = y := by
  constructor
  · intro he x hx y hy
    have h1 : x = seriesMax xs :=
      le_antisymm (le_seriesMax xs x hx) (he ▸ seriesMin_le xs x hx)
    have h2 : y = seriesMax xs :=
      le_antisymm (le_seriesMax xs y hy) (he ▸ seriesMin_le xs y hy)
    rw [h1, h2]
  · intro hc
    exact hc _ (seriesMax_mem xs h) _ (seriesMin_mem xs h)

theorem listMean_bounds (xs : List ℚ) (hne : xs ≠ []) (a b : ℚ)
    (hlo : ∀ x ∈ xs, a ≤ x) (hhi : ∀ x ∈ xs, x ≤ b) :
    a ≤ listMean xs ∧ listMean xs ≤ b := by
  have hlen : (0 : ℚ) < (xs.length : ℚ) := by
    have := List.length_pos.mpr hne
    exact_mod_cast this
  have hsum_hi : xs.sum ≤ (xs.length : ℚ) * b := by
    have := List.sum_le_card_nsmul xs b hhi
    simpa [nsmul_eq_mul] using this
  have hsum_lo : (xs.length : ℚ) * a ≤ xs.sum := by
    have := List.card_nsmul_le_sum xs a hlo
    simpa [nsmul_eq_mul] using this
  constructor
  · rw [listMean, le_div_iff₀ hlen]
    linarith
  · rw [listMean, div_le_iff₀ hlen]
    linarith

theorem mem_insertSorted (le : α → α → Bool) (a x : α) (l : List α) :
    x ∈ insertSorted le a l ↔ x = a ∨ x ∈ l := by
  induction l with
  | nil => simp [insertSorted]
  | cons b bs ih =>
    simp only [insertSorted]
    split
    · simp only [List.mem_cons]
    · simp only [List.mem_cons, ih]
      tauto

theorem mem_sortWith (le : α → α → Bool) (x : α) (l : List α) :
    x ∈ sortWith le l ↔ x ∈ l := by
  induction l with
  | nil => simp [sortWith]
  | cons b bs ih =>
    simp only [sortWith, mem_insertSorted, ih, List.mem_cons]

theorem length_sortWith (le : α → α → Bool) (l : List α) :
    (sortWith le l).length = l.length := by
  induction l with
  | nil => rfl
  | cons b bs ih =>
    have hlen : ∀ (a : α) (m : List α), (insertSorted le a m).length = m.length + 1 := by
      intro a m
      induction m with
      | nil => rfl
      | cons c cs ihm =>
        by_cases h : le a c = true <;> simp [insertSorted, h, ihm]
    simp [sortWith, hlen, ih]

/-- Every value of `Engagement.normalize` lies in [0, 1]. -/
theorem engagement_normalize_bounds (xs : List ℚ) (y : ℚ)
    (hy : y ∈ Engagement.normalize xs) : 0 ≤ y ∧ y ≤ 1 := by
  by_cases hemp : xs.isEmpty
  · rw [Engagement.normalize, if_pos hemp] at hy
    simp at hy
  · have hne : xs ≠ [] := by
      intro h
      rw [h] at hemp
      exact hemp rfl
    rw [Engagement.normalize, if_neg hemp] at hy
    by_cases htie : seriesMax xs = seriesMin xs
    · rw [if_pos htie] at hy
      have := List.eq_of_mem_replicate hy
      subst this
      norm_num
    · rw [if_neg htie] at hy
      rcases List.mem_map.mp hy with ⟨x, hx, hval⟩
      have hgap : 0 < seriesMax xs - seriesMin xs := by
        have hle := seriesMin_le_seriesMax xs hne
        rcases lt_or_eq_of_le hle with hlt | heq
        · linarith
        · exact absurd heq.symm htie
      constructor
      · rw [← hval]
        exact div_nonneg (by linarith [seriesMin_le xs x hx]) (le_of_lt hgap)
      · rw [← hval]
        rw [div_le_one hgap]
        linarith [le_seriesMax xs x hx]

/-- Every value of `Hype.normalize` lies in [0.2, 1]. -/
theorem hype_normalize_bounds (xs : List ℚ) (y : ℚ)
    (hy : y ∈ Hype.normalize xs) : 1/5 ≤ y ∧ y ≤ 1 := by
  rcases List.mem_map.mp hy with ⟨x, hx, hval⟩
  have hne : xs ≠ [] := List.ne_nil_of_mem hx
  have hgap : (0 : ℚ) ≤ seriesMax xs - seriesMin xs := by
    linarith [seriesMin_le_seriesMax xs hne]
  have hden : (0 : ℚ) < seriesMax xs - seriesMin xs + 1 / 1000000000 := by linarith
  have hs0 : (0 : ℚ) ≤ (x - seriesMin xs) / (seriesMax xs - seriesMin xs + 1 / 1000000000) :=
    div_nonneg (by linarith [seriesMin_le xs x hx]) (le_of_lt hden)
  have hs1 : (x - seriesMin xs) / (seriesMax xs - seriesMin xs + 1 / 1000000000) ≤ 1 := by
    rw [div_le_one hden]
    linarith [le_seriesMax xs x hx]
  constructor
  · rw [← hval]; norm_num; linarith
  · rw [← hval]; norm_num; linarith

/-- Every key present on either side of an outer merge appears among the
merged keys. -/
theorem mergeOuter_keys_complete {α β : Type} (l : List (String × α)) (r : List (String × β))
    (n : String) (hn : n ∈ l.map Prod.fst ∨ n ∈ r.map Prod.fst) :
    n ∈ (mergeOuter l r).map (fun m => m.1) := by
  rw [mergeOuter]
  simp only [List.map_append, List.mem_append]
  rcases hn with hl | hr
  · left
    rcases List.mem_map.mp hl with ⟨p, hp, hpn⟩
    rw [List.map_flatMap]
    apply List.mem_flatMap.mpr
    refine ⟨p, hp, ?_⟩
    by_cases hms : (r.filter (fun q => q.1 == p.1)).isEmpty
    · simp only [hms, if_pos]
      simp [hpn]
    · simp only [hms, if_neg, Bool.false_eq_true, not_false_iff]
      rw [List.isEmpty_iff] at hms
      rcases List.exists_mem_of_ne_nil _ hms with ⟨q, hq⟩
      simp only [List.map_map, List.mem_map]
      exact ⟨q, hq, by simp [hpn]⟩
  · rcases List.mem_map.mp hr with ⟨q, hq, hqn⟩
    by_cases hfind : (l.find? (fun p => p.1 == q.1)).isNone
    · right
      simp only [List.map_map, List.mem_map]
      refine ⟨q, List.mem_filter.mpr ⟨hq, by simp [hfind]⟩, by simp [hqn]⟩
    · left
      have hex : ∃ x, (q.1, x) ∈ l := by simpa using hfind
      rcases hex with ⟨x, hpl⟩
      rw [List.map_flatMap]
      apply List.mem_flatMap.mpr
      refine ⟨(q.1, x), hpl, ?_⟩
      have hms : ¬((r.filter (fun p => p.1 == (q.1, x).1)).isEmpty = true) := by
        rw [List.isEmpty_iff]
        intro hcon
        have : q ∈ r.filter (fun p => p.1 == (q.1, x).1) :=
          List.mem_filter.mpr ⟨hq, by simp⟩
        rw [hcon] at this
        simp at this
      simp only [hms, if_neg, Bool.false_eq_true, not_false_iff]
      rcases List.exists_mem_of_ne_nil _ (List.isEmpty_iff.not.mp hms) with ⟨q', hq'⟩
      simp only [List.map_map, List.mem_map]
      exact ⟨q', hq', by simp [hqn]⟩

/-- The left component of a merged row comes from the left table. -/
theorem mergeOuter_fst_source {α β : Type} (l : List (String × α)) (r : List (String × β))
    (m : String × Option α × Option β) (hm : m ∈ mergeOuter l r)
    (a : α) (ha : m.2.1 = some a) : (m.1, a) ∈ l := by
  rw [mergeOuter] at hm
  rcases List.mem_append.mp hm with hm | hm
  · rcases List.mem_flatMap.mp hm with ⟨p, hp, hin⟩
    by_cases hms : (r.filter (fun q => q.1 == p.1)).isEmpty
    · simp only [hms, if_pos] at hin
      simp only [List.mem_singleton] at hin
      subst hin
      simp only at ha
      obtain rfl := Option.some.inj ha
      simpa using hp
    · simp only [hms, if_neg, Bool.false_eq_true, not_false_iff] at hin
      rcases List.mem_map.mp hin with ⟨q, _, hq⟩
      rw [← hq] at ha ⊢
      simp only at ha
      obtain rfl := Option.some.inj ha
      simpa using hp
  · rcases List.mem_map.mp hm with ⟨q, _, hq⟩
    rw [← hq] at ha
    simp at ha

/-- The right component of a merged row comes from the right table. -/
theorem mergeOuter_snd_source {α β : Type} (l : List (String × α)) (r : List (String × β))
    (m : String × Option α × Option β) (hm : m ∈ mergeOuter l r)
    (b : β) (hb : m.2.2 = some b) : (m.1, b) ∈ r := by
  rw [mergeOuter] at hm
  rcases List.mem_append.mp hm with hm | hm
  · rcases List.mem_flatMap.mp hm with ⟨p, hp, hin⟩
    by_cases hms : (r.filter (fun q => q.1 == p.1)).isEmpty
    · simp only [hms, if_pos] at hin
      simp only [List.mem_singleton] at hin
      subst hin
      simp at hb
    · simp only [hms, if_neg, Bool.false_eq_true, not_false_iff] at hin
      rcases List.mem_map.mp hin with ⟨q, hqmem, hq⟩
      rw [← hq] at hb ⊢
      simp only at hb
      obtain rfl := Option.some.inj hb
      have hqr : q ∈ r := List.mem_of_mem_filter hqmem
      have hqk : q.1 = p.1 := by
        have := List.of_mem_filter hqmem
        simpa using this
      show (p.1, q.2) ∈ r
      rw [← hqk]
      simpa using hqr
  · rcases List.mem_map.mp hm with ⟨q, hqmem, hq⟩
    rw [← hq] at hb ⊢
    simp only at hb
    obtain rfl := Option.some.inj hb
    simpa using List.mem_of_mem_filter hqmem

/-- Bounds for the renormalized weighted aggregation: with nonnegative
weights and sub-scores in [lo, hi] (an interval containing 0, the
no-weight fallback), the aggregate stays in [lo, hi]. -/
theorem weightedAggregate_bounds (w : String → ℚ) (rs : List (String × ℚ)) (lo hi : ℚ)
    (hlo0 : lo ≤ 0) (hhi0 : 0 ≤ hi)
    (hw : ∀ p ∈ rs, 0 ≤ w p.1) (hb : ∀ p ∈ rs, lo ≤ p.2 ∧ p.2 ≤ hi) :
    lo ≤ weightedAggregate w rs ∧ weightedAggregate w rs ≤ hi := by
  rw [weightedAggregate]
  by_cases hpos : 0 < (rs.map (fun p => w p.1)).sum
  · rw [if_pos hpos]
    have hhi' : (rs.map (fun p => p.2 * w p.1)).sum ≤ hi * (rs.map (fun p => w p.1)).sum := by
      have h1 : (rs.map (fun p => p.2 * w p.1)).sum ≤ (rs.map (fun p => hi * w p.1)).sum := by
        apply List.sum_le_sum
        intro p hp
        exact mul_le_mul_of_nonneg_right (hb p hp).2 (hw p hp)
      calc (rs.map (fun p => p.2 * w p.1)).sum ≤ (rs.map (fun p => hi * w p.1)).sum := h1
        _ = hi * (rs.map (fun p => w p.1)).sum := by
            rw [← List.sum_map_mul_left]
    have hlo' : lo * (rs.map (fun p => w p.1)).sum ≤ (rs.map (fun p => p.2 * w p.1)).sum := by
      have h1 : (rs.map (fun p => lo * w p.1)).sum ≤ (rs.map (fun p => p.2 * w p.1)).sum := by
        apply List.sum_le_sum
        intro p hp
        exact mul_le_mul_of_nonneg_right (hb p hp).1 (hw p hp)
      calc lo * (rs.map (fun p => w p.1)).sum = (rs.map (fun p => lo * w p.1)).sum := by
            rw [← List.sum_map_mul_left]
        _ ≤ (rs.map (fun p => p.2 * w p.1)).sum := h1
    exact ⟨(le_div_iff₀ hpos).mpr hlo', (div_le_iff₀ hpos).mpr hhi'⟩
  · rw [if_neg hpos]
    exact ⟨hlo0, hhi0⟩

/-! ## Validity assumptions for the range theorems -/

/-- Shape facts of `np.log1p` that the range theorems rely on (all hold
for the real `log1p`): value 0 at 0, monotone on nonnegatives, positive on
positives. -/
def Log1pLike (f : ℚ → ℚ) : Prop :=
  f 0 = 0 ∧ (∀ a b, 0 ≤ a → a ≤ b → f a ≤ f b) ∧ (∀ a, 0 < a → 0 < f a)

/-- The sentiment lexicon returns polarities in [-1, 1] (as TextBlob
does). -/
def PolarityLike (polarity : String → Option ℚ) : Prop :=
  ∀ s q, polarity s = some q → -1 ≤ q ∧ q ≤ 1

/-- Input validity: counts are nonnegative and star ratings lie on the
1–5 scale. -/
structure ValidInput (dfs : Dataframes) : Prop where
  amazonReviews : ∀ r ∈ dfs.amazon.rows, ∀ x, r.reviews_count = some x → 0 ≤ x
  amazonRating : ∀ r ∈ dfs.amazon.rows, ∀ x, r.rating = some x → 1 ≤ x ∧ x ≤ 5
  tiktokViews : ∀ r ∈ dfs.tiktok.rows, ∀ x, r.views = some x → 0 ≤ x
  tiktokLikes : ∀ r ∈ dfs.tiktok.rows, ∀ x, r.likes = some x → 0 ≤ x
  tiktokComments : ∀ r ∈ dfs.tiktok.rows, ∀ x, r.comments = some x → 0 ≤ x
  tiktokShares : ∀ r ∈ dfs.tiktok.rows, ∀ x, r.shares = some x → 0 ≤ x

theorem log1p_ratio_bounds (f : ℚ → ℚ) (hf : Log1pLike f) (x mx : ℚ)
    (hx0 : 0 ≤ x) (hxm : x ≤ mx) (hm : 0 < mx) :
    0 ≤ f x / f mx ∧ f x / f mx ≤ 1 := by
  obtain ⟨h0, hmono, hpos⟩ := hf
  have hfm : 0 < f mx := hpos mx hm
  have hfx0 : 0 ≤ f x := h0 ▸ hmono 0 x le_rfl hx0
  have hfxm : f x ≤ f mx := hmono x mx hx0 hxm
  exact ⟨div_nonneg hfx0 (le_of_lt hfm), (div_le_one hfm).mpr hfxm⟩

theorem listMean_map_bounds {β : Type} (g : β → ℚ) (rows : List β) (hne : rows ≠ [])
    (a b : ℚ) (h : ∀ r ∈ rows, a ≤ g r ∧ g r ≤ b) :
    a ≤ listMean (rows.map g) ∧ listMean (rows.map g) ≤ b := by
  apply listMean_bounds
  · simpa using hne
  · intro x hx
    rcases List.mem_map.mp hx with ⟨r, hr, rfl⟩
    exact (h r hr).1
  · intro x hx
    rcases List.mem_map.mp hx with ⟨r, hr, rfl⟩
    exact (h r hr).2

theorem growthWeights_nonneg (s : String) : 0 ≤ growthWeights s := by
  rw [growthWeights]
  repeat' split
  all_goals norm_num

theorem sentimentWeights_nonneg (s : String) : 0 ≤ sentimentWeights s := by
  rw [sentimentWeights]
  repeat' split
  all_goals norm_num

/-- The total TikTok engagement of a row is nonnegative on valid input. -/
theorem tiktokTotalEngagement_nonneg (dfs : Dataframes) (hv : ValidInput dfs)
    (r : TiktokRow) (hr : r ∈ dfs.tiktok.rows) :
    0 ≤ tiktokTotalEngagement dfs.tiktok r := by
  rw [tiktokTotalEngagement]
  have h1 : (0:ℚ) ≤ (if dfs.tiktok.hasViews then r.views.getD 0 else 0) := by
    split
    · cases hc : r.views with
      | none => simp
      | some x => simpa using hv.tiktokViews r hr x hc
    · exact le_refl 0
  have h2 : (0:ℚ) ≤ (if dfs.tiktok.hasLikes then r.likes.getD 0 else 0) := by
    split
    · cases hc : r.likes with
      | none => simp
      | some x => simpa using hv.tiktokLikes r hr x hc
    · exact le_refl 0
  have h3 : (0:ℚ) ≤ (if dfs.tiktok.hasComments then r.comments.getD 0 else 0) := by
    split
    · cases hc : r.comments with
      | none => simp
      | some x => simpa using hv.tiktokComments r hr x hc
    · exact le_refl 0
  have h4 : (0:ℚ) ≤ (if dfs.tiktok.hasShares then r.shares.getD 0 else 0) := by
    split
    · cases hc : r.shares with
      | none => simp
      | some x => simpa using hv.tiktokShares r hr x hc
    · exact le_refl 0
  linarith

/-- The reviews-based Amazon growth candidate is in [0, 1] on valid
input. -/
theorem amazonG0_bounds (f : ℚ → ℚ) (hf : Log1pLike f) (dfs : Dataframes)
    (hv : ValidInput dfs) (hne : dfs.amazon.rows ≠ []) :
    0 ≤ amazonG0 f dfs ∧ amazonG0 f dfs ≤ 1 := by
  rw [amazonG0]
  split
  · split
    case isTrue hmx =>
      have hrcne : dfs.amazon.rows.map (fun r => r.reviews_count.getD 0) ≠ [] := by
        simpa using hne
      apply listMean_map_bounds _ _ hrcne
      intro x hx
      have hx0 : 0 ≤ x := by
        rcases List.mem_map.mp hx with ⟨r, hr, rfl⟩
        cases hc : r.reviews_count with
        | none => simp
        | some v => simpa [hc] using hv.amazonReviews r hr v hc
      exact log1p_ratio_bounds f hf x _ hx0 (le_seriesMax _ x hx) hmx
    case isFalse => norm_num
  · norm_num

/-- The mean rating of a valid Amazon frame lies in [1, 5]. -/
theorem meanRating_bounds (dfs : Dataframes) (hv : ValidInput dfs)
    (hne : dfs.amazon.rows ≠ []) :
    1 ≤ listMean (dfs.amazon.rows.map (fun r => r.rating.getD 3)) ∧
    listMean (dfs.amazon.rows.map (fun r => r.rating.getD 3)) ≤ 5 := by
  apply listMean_map_bounds _ _ hne
  intro r hr
  cases hc : r.rating with
  | none => norm_num
  | some v => simpa [hc] using hv.amazonRating r hr v hc

/-- Every per-platform growth sub-score is in [0, 1] on valid input. -/
theorem growthResults_bounds (f : ℚ → ℚ) (hf : Log1pLike f) (dfs : Dataframes)
    (hv : ValidInput dfs) : ∀ p ∈ growthResults f dfs, 0 ≤ p.2 ∧ p.2 ≤ 1 := by
  intro p hp
  rw [growthResults] at hp
  rcases List.mem_append.mp hp with hp | hp'
  rcases List.mem_append.mp hp with hp | hp''
  rcases List.mem_append.mp hp with hp | hp'''
  · -- shopify: mean of a 0/1 indicator
    rw [growthShopify] at hp
    split at hp
    case isTrue hcond =>
      simp only [List.mem_singleton] at hp
      subst hp
      have hne : dfs.shopify.rows ≠ [] := by
        have h1 := hcond
        simp only [Bool.and_eq_true, Bool.not_eq_true'] at h1
        simpa [List.isEmpty_iff] using h1.1
      exact listMean_map_bounds _ _ hne 0 1 (fun r _ => by split <;> norm_num)
    case isFalse => simp at hp
  · -- amazon: reviews candidate or rating fallback, clamped below at 0
    rw [growthAmazon] at hp'''
    split at hp'''
    case isTrue hcond =>
      simp only [List.mem_singleton] at hp'''
      subst hp'''
      have hne : dfs.amazon.rows ≠ [] := by
        simpa [List.isEmpty_iff] using hcond
      simp only
      refine ⟨le_max_left 0 _, max_le (by norm_num) ?_⟩
      split
      · split
        · rcases meanRating_bounds dfs hv hne with ⟨h1, h5⟩
          linarith
        · exact (amazonG0_bounds f hf dfs hv hne).2
      · exact (amazonG0_bounds f hf dfs hv hne).2
    case isFalse => simp at hp'''
  · -- tiktok: mean of log ratios
    rw [growthTiktok] at hp''
    split at hp''
    case isTrue hcond =>
      split at hp''
      case isTrue hmx =>
        simp only [List.mem_singleton] at hp''
        subst hp''
        have hne : dfs.tiktok.rows ≠ [] := by
          simpa [List.isEmpty_iff] using hcond
        simp only
        have hnemap : dfs.tiktok.rows.map (tiktokTotalEngagement dfs.tiktok) ≠ [] := by
          simpa using hne
        apply listMean_map_bounds _ _ hnemap
        intro x hx
        rcases List.mem_map.mp hx with ⟨r, hr, rfl⟩
        exact log1p_ratio_bounds f hf _ _ (tiktokTotalEngagement_nonneg dfs hv r hr)
          (le_seriesMax _ _ (List.mem_map_of_mem _ hr)) hmx
      case isFalse => simp at hp''
    case isFalse => simp at hp''
  · -- reddit: d / (d + 100)
    rw [growthReddit] at hp'
    split at hp'
    case isTrue =>
      simp only [List.mem_singleton] at hp'
      subst hp'
      simp only
      have hd : (0:ℚ) ≤ (dfs.redditPosts.rows.length : ℚ) + (dfs.redditComments.rows.length : ℚ) := by
        positivity
      constructor
      · apply div_nonneg hd
        linarith
      · rw [div_le_one (by linarith)]
        linarith
    case isFalse => simp at hp'

/-- Every per-platform sentiment sub-score is in [-1, 1] on valid input
and a [-1, 1]-valued lexicon. -/
theorem sentimentResults_bounds (polarity : String → Option ℚ) (hpol : PolarityLike polarity)
    (dfs : Dataframes) (hv : ValidInput dfs) :
    ∀ p ∈ sentimentResults polarity dfs, -1 ≤ p.2 ∧ p.2 ≤ 1 := by
  intro p hp
  have polbound : ∀ (vals : List ℚ), vals ≠ [] →
      (∀ q ∈ vals, -1 ≤ q ∧ q ≤ 1) → -1 ≤ listMean vals ∧ listMean vals ≤ 1 := by
    intro vals hne hq
    exact listMean_bounds vals hne (-1) 1 (fun x hx => (hq x hx).1) (fun x hx => (hq x hx).2)
  rw [sentimentResults] at hp
  rcases List.mem_append.mp hp with hp | hp'
  rcases List.mem_append.mp hp with hp | hp''
  · -- amazon ratings
    rw [sentimentAmazon] at hp
    split at hp
    case isTrue hcond =>
      simp only [List.mem_singleton] at hp
      subst hp
      have hne : dfs.amazon.rows ≠ [] := by
        have h1 := hcond
        simp only [Bool.and_eq_true, Bool.not_eq_true'] at h1
        simpa [List.isEmpty_iff] using h1.1
      rcases meanRating_bounds dfs hv hne with ⟨h1, h5⟩
      simp only
      constructor <;> linarith
    case isFalse => simp at hp
  · -- tiktok text polarity
    rw [sentimentTiktok] at hp''
    split at hp''
    case isTrue =>
      split at hp''
      case isTrue hvals =>
        simp only [List.mem_singleton] at hp''
        subst hp''
        simp only
        apply polbound
        · simpa [List.isEmpty_iff] using hvals
        · intro q hq
          rw [tiktokSentimentVals] at hq
          split at hq
          · rcases List.mem_filterMap.mp hq with ⟨s, _, hs⟩
            exact hpol s q hs
          · split at hq
            · rcases List.mem_filterMap.mp hq with ⟨s, _, hs⟩
              exact hpol s q hs
            · simp at hq
      case isFalse => simp at hp''
    case isFalse => simp at hp''
  · -- reddit text polarity
    rw [sentimentReddit] at hp'
    split at hp'
    case isTrue hvals =>
      simp only [List.mem_singleton] at hp'
      subst hp'
      simp only
      apply polbound
      · simpa [List.isEmpty_iff] using hvals
      · intro q hq
        rw [redditSentimentVals] at hq
        rcases List.mem_append.mp hq with hq | hq
        · split at hq
          · rcases List.mem_append.mp hq with hq' | hq'
            · split at hq'
              · rcases List.mem_filterMap.mp hq' with ⟨s, _, hs⟩
                exact hpol s q hs
              · simp at hq'
            · split at hq'
              · rcases List.mem_filterMap.mp hq' with ⟨s, _, hs⟩
                exact hpol s q hs
              · simp at hq'
          · simp at hq
        · split at hq
          · rcases List.mem_filterMap.mp hq with ⟨s, _, hs⟩
            exact hpol s q hs
          · simp at hq
    case isFalse => simp at hp'

/-! ## Concrete inputs used by witnesses and counterexamples -/

/-- A lexicon on which every analysis raises; vacuously [-1, 1]-valued. -/
def pol0 : String → Option ℚ := fun _ => none

/-- A TikTok frame with one fully-populated video row in niche carpet. -/
def tiktokA : TiktokDF :=
  { hasNiche := true, hasVideoId := true, hasViews := true, hasLikes := true,
    hasComments := true, hasShares := true,
    rows := [{ niche := some "carpet", video_id := some "v1", views := some 10,
               likes := some 5, comments := some 3, shares := some 2 }] }

/-- A Reddit posts frame with one row in niche carpet. -/
def redditA : RedditPostsDF :=
  { hasNiche := true, hasUpvotes := true, hasCommentsCount := true,
    rows := [{ niche := some "carpet", upvotes := some 4, comments_count := some 1 }] }

/-- An Amazon frame with a single 4-star row and no reviews column. -/
def amazonW : AmazonDF := { hasRating := true, rows := [{ rating := some 4 }] }

/-- Scenario-B-style input: amazon and shopify frames empty, TikTok and
Reddit populated. -/
def dfsA : Dataframes := { tiktok := tiktokA, redditPosts := redditA }

/-- Input on which growth, sentiment and engagement are all non-empty. -/
def dfsW : Dataframes := { tiktok := tiktokA, redditPosts := redditA, amazon := amazonW }

/-- Input with TikTok data only: growth and engagement non-empty but
sentiment empty (the frame has no text column). -/
def dfsC3 : Dataframes := { tiktok := tiktokA }

/-- A Shopify frame with one in-stock row and no id columns. -/
def dfsC2 : Dataframes :=
  { shopify := { hasStockStatus := true, rows := [{ stock_status := some "In Stock" }] } }

/-- An Amazon frame whose single rating is out of the 1–5 scale. -/
def dfsC6 : Dataframes := { amazon := { hasRating := true, rows := [{ rating := some 10 }] } }

/-- A non-empty Amazon frame lacking both the reviews and the rating
column. -/
def dfsC9 : Dataframes := { amazon := { rows := [{}] } }

/-- A TikTok frame with synonymous niche labels `Carpets` and `CARPET`. -/
def tiktokC7 : TiktokDF :=
  { hasNiche := true, hasVideoId := true, hasViews := true, hasLikes := true,
    hasComments := true, hasShares := true,
    rows := [{ niche := some "Carpets", video_id := some "v1", views := some 10,
               likes := some 1, comments := some 0, shares := some 0 },
             { niche := some "CARPET", video_id := some "v2", views := some 10,
               likes := some 2, comments := some 0, shares := some 0 }] }

/-! ## Claim theorems -/

/-- C1: for every metric, the aggregate over the platforms that produced a
score is `Σ(w_p * s_p) / Σ(w_p)`; with only tiktok and reddit present the
effective weights are 0.30/0.40 and 0.10/0.40, whatever the weights of the
absent platforms are; in particular the growth aggregator combines a
tiktok/reddit-only results list with those effective weights. -/
theorem claim1_weight_renormalization :
    (∀ (w : String → ℚ) (rs : List (String × ℚ)),
      0 < (rs.map (fun p => w p.1)).sum →
      weightedAggregate w rs =
        (rs.map (fun p => w p.1 * p.2)).sum / (rs.map (fun p => w p.1)).sum) ∧
    (∀ (w : String → ℚ) (t r : ℚ), w "tiktok" = 3/10 → w "reddit" = 1/10 →
      weightedAggregate w [("tiktok", t), ("reddit", r)] =
        ((3/10) / (4/10)) * t + ((1/10) / (4/10)) * r) ∧
    (∀ (f : ℚ → ℚ) (dfs : Dataframes) (t r : ℚ),
      growthResults f dfs = [("tiktok", t), ("reddit", r)] →
      calculate_growth_rate f dfs =
        [⟨nicheLabel dfs.redditPosts, ((3/10) / (4/10)) * t + ((1/10) / (4/10)) * r⟩]) := by
  have key : ∀ (w : String → ℚ) (t r : ℚ), w "tiktok" = 3/10 → w "reddit" = 1/10 →
      weightedAggregate w [("tiktok", t), ("reddit", r)] =
        ((3/10) / (4/10)) * t + ((1/10) / (4/10)) * r := by
    intro w t r hwt hwr
    rw [weightedAggregate]
    simp only [List.map_cons, List.map_nil, List.sum_cons, List.sum_nil, hwt, hwr]
    rw [if_pos (by norm_num)]
    ring
  refine ⟨?_, key, ?_⟩
  · intro w rs hpos
    rw [weightedAggregate]
    rw [if_pos hpos]
    have hmap : (rs.map (fun p => p.2 * w p.1)) = rs.map (fun p => w p.1 * p.2) := by
      apply List.map_congr_left
      intro p _
      ring
    rw [hmap]
  · intro f dfs t r hres
    rw [calculate_growth_rate, hres]
    rw [if_pos (by simp)]
    have := key growthWeights t r (by norm_num +decide [growthWeights])
      (by norm_num +decide [growthWeights])
    rw [this]

/-- C1 witness: Scenario B on concrete data — tiktok sub-score 1, reddit
sub-score 1/101, aggregated with effective weights 0.75/0.25. -/
theorem claim1_witness :
    growthResults id dfsA = [("tiktok", 1), ("reddit", 1/101)] ∧
    calculate_growth_rate id dfsA =
      [⟨nicheLabel dfsA.redditPosts, ((3/10) / (4/10)) * 1 + ((1/10) / (4/10)) * (1/101)⟩] := by
  have hres : growthResults id dfsA = [("tiktok", 1), ("reddit", 1/101)] := by
    norm_num +decide [growthResults, growthShopify, growthAmazon, growthTiktok, growthReddit,
      amazonG0, listMean, seriesMax, tiktokTotalEngagement, dfsA, tiktokA, redditA]
  exact ⟨hres, claim1_weight_renormalization.2.2 id dfsA 1 (1/101) hres⟩

/-- C2 counterexample: on a Shopify frame that yields a record once a
niche is supplied, the product-level computation with no niche argument
returns normally with the empty table — no `InvalidArgument` failure is
raised and nothing distinguishes the call from an empty dataset. -/
theorem claim2_counterexample :
    calculate_product_level_shopify_growth id dfsC2 none = [] ∧
    calculate_product_level_shopify_growth id dfsC2 (some "carpet") =
      [⟨"0", "0", 1, 0, 4/5⟩] := by
  constructor
  · rfl
  · norm_num +decide [calculate_product_level_shopify_growth, calculate_social_enrichment,
      truthy, dfsC2, isInStock, inStockVocab, cellStr, pyLower, sortWith, insertSorted,
      List.range, List.range.loop]

/-- C2 amended: a missing (`None` or empty-string) niche argument makes
both product-level growth variants log a warning and return the empty
record list; the failure is not surfaced to the caller (the HTTP layer
raises its own 400 before calling). -/
theorem claim2_no_niche_returns_empty (f : ℚ → ℚ) (dfs : Dataframes) :
    calculate_product_level_shopify_growth f dfs none = [] ∧
    calculate_product_level_amazon_growth f dfs none = [] ∧
    calculate_product_level_shopify_growth f dfs (some "") = [] ∧
    calculate_product_level_amazon_growth f dfs (some "") = [] := by
  refine ⟨?_, ?_, ?_, ?_⟩ <;>
    first
    | rw [calculate_product_level_shopify_growth, if_pos (by rfl)]
    | rw [calculate_product_level_amazon_growth, if_pos (by rfl)]

/-- C3 counterexample: on `dfsC3` the growth mapping contains the niche
`Overall` (and engagement contains `carpet`), yet the composite output is
empty, because the sentiment mapping is empty and the join only happens
when all three mappings are non-empty — so a niche present in at least
one metric mapping does *not* always appear in the output. -/
theorem claim3_counterexample :
    calculate_growth_rate id dfsC3 = [⟨"Overall", 1⟩] ∧
    Engagement.engagement dfsC3.tiktok dfsC3.redditPosts = [("carpet", 1/2)] ∧
    calculate_trend_index id pol0 dfsC3 = [] := by
  refine ⟨?_, ?_, ?_⟩
  · norm_num +decide [calculate_growth_rate, growthResults, growthShopify, growthAmazon,
      growthTiktok, growthReddit, amazonG0, weightedAggregate, growthWeights, nicheLabel,
      listMean, seriesMax, tiktokTotalEngagement, dfsC3, tiktokA]
  · norm_num +decide [Engagement.engagement, Engagement.tiktokKeyed, Engagement.redditKeyed,
      Engagement.combinedRows, Engagement.engagementFinals, Engagement.tiktok_engagement,
      Engagement.reddit_engagement, Engagement.tiktokRate, Engagement.normalize,
      groupbyMean, groupbyMean2, sortWith, insertSorted, strLe, pairLe, charListLt,
      listMean, seriesMin, seriesMax, mergeOuter, pyLower, pyStrip, dfsC3, tiktokA,
      List.dedup, List.count]
  · rw [calculate_trend_index, if_neg]
    norm_num +decide [calculate_sentiment_score, sentimentResults, sentimentAmazon,
      sentimentTiktok, sentimentReddit, tiktokSentimentVals, redditSentimentVals,
      dfsC3, tiktokA, pol0]

/-- C3 amended: the three metric tables are combined by an outer join on
niche with missing metrics zero-filled — but only when all three of
growth, sentiment and engagement are non-empty; if any one of them is
empty the whole composite output is empty, dropping niches present in the
other mappings. -/
theorem claim3_outer_join_guarded (f : ℚ → ℚ) (pol : String → Option ℚ) (dfs : Dataframes) :
    (calculate_growth_rate f dfs = [] ∨ calculate_sentiment_score pol dfs = [] ∨
      Engagement.engagement dfs.tiktok dfs.redditPosts = [] →
      calculate_trend_index f pol dfs = []) ∧
    (calculate_growth_rate f dfs ≠ [] → calculate_sentiment_score pol dfs ≠ [] →
      Engagement.engagement dfs.tiktok dfs.redditPosts ≠ [] →
      (∀ n : String,
        (n ∈ (calculate_growth_rate f dfs).map GrowthRecord.niche ∨
         n ∈ (calculate_sentiment_score pol dfs).map SentimentRecord.niche ∨
         n ∈ (Engagement.engagement dfs.tiktok dfs.redditPosts).map Prod.fst) →
        ∃ rec ∈ calculate_trend_index f pol dfs, rec.niche = n) ∧
      (∀ rec ∈ calculate_trend_index f pol dfs,
        (rec.niche ∉ (calculate_growth_rate f dfs).map GrowthRecord.niche →
          rec.growth_rate = 0) ∧
        (rec.niche ∉ (calculate_sentiment_score pol dfs).map SentimentRecord.niche →
          rec.sentiment_score = 0))) := by
  constructor
  · intro h
    rw [calculate_trend_index, if_neg]
    rcases h with h | h | h <;> simp [h]
  · intro hg hs he
    have hguard : (!(calculate_growth_rate f dfs).isEmpty &&
        !(calculate_sentiment_score pol dfs).isEmpty &&
        !(Engagement.engagement dfs.tiktok dfs.redditPosts).isEmpty) = true := by
      simp [List.isEmpty_iff, hg, hs, he]
    constructor
    · intro n hn
      -- the key n survives both outer merges
      have hkeys1 : n ∈ (calculate_growth_rate f dfs).map GrowthRecord.niche ∨
          n ∈ (calculate_sentiment_score pol dfs).map SentimentRecord.niche →
          n ∈ (trendM1 f pol dfs).map (fun m => m.1) := by
        intro h1
        rw [trendM1]
        apply mergeOuter_keys_complete
        rcases h1 with h1 | h1
        · left; simpa using h1
        · right; simpa using h1
      have hkeys2 : n ∈ (trendM2 f pol dfs).map (fun m => m.1) := by
        rw [trendM2]
        apply mergeOuter_keys_complete
        rcases hn with h1 | h1
        · left
          have := hkeys1 (Or.inl h1)
          simpa [List.map_map, Function.comp] using this
        rcases h1 with h1 | h1
        · left
          have := hkeys1 (Or.inr h1)
          simpa [List.map_map, Function.comp] using this
        · right; simpa using h1
      rcases List.mem_map.mp hkeys2 with ⟨m, hm, hmn⟩
      refine ⟨⟨m.1, (m.2.1.getD (none, none)).1.getD 0, (m.2.1.getD (none, none)).2.getD 0,
        min 100 (max 0 ((0.35 * ((m.2.1.getD (none, none)).1.getD 0) +
          0.25 * (m.2.2.getD 0) +
          0.25 * (((m.2.1.getD (none, none)).2.getD 0 + 1) / 2) + 0.15 * (0.5 : ℚ)) * 100))⟩,
        ?_, hmn⟩
      rw [calculate_trend_index, if_pos hguard]
      apply List.mem_map.mpr
      refine ⟨⟨m.1, (m.2.1.getD (none, none)).1.getD 0, (m.2.1.getD (none, none)).2.getD 0,
        m.2.2.getD 0⟩, ?_, rfl⟩
      rw [trendMergedRows]
      exact List.mem_map.mpr ⟨m, hm, rfl⟩
    · intro rec hrec
      rw [calculate_trend_index, if_pos hguard] at hrec
      rcases List.mem_map.mp hrec with ⟨row, hrow, hrec'⟩
      rw [trendMergedRows] at hrow
      rcases List.mem_map.mp hrow with ⟨m, hm, hrow'⟩
      have hniche : rec.niche = m.1 := by rw [← hrec', ← hrow']
      have hgrow : rec.growth_rate = (m.2.1.getD (none, none)).1.getD 0 := by
        rw [← hrec', ← hrow']
      have hsent : rec.sentiment_score = (m.2.1.getD (none, none)).2.getD 0 := by
        rw [← hrec', ← hrow']
      rw [trendM2] at hm
      constructor
      · intro hnot
        rw [hgrow]
        cases hm21 : m.2.1 with
        | none => simp
        | some gs =>
          cases hgs1 : gs.1 with
          | none => simp [hm21, hgs1]
          | some g =>
            exfalso
            have hsrc := mergeOuter_fst_source _ _ m hm gs (by rw [hm21])
            rcases List.mem_map.mp hsrc with ⟨m', hm', hm'eq⟩
            have hk : m'.1 = m.1 := by simpa using congrArg Prod.fst hm'eq
            have hv : m'.2 = gs := by simpa using congrArg Prod.snd hm'eq
            rw [trendM1] at hm'
            have hsrc2 := mergeOuter_fst_source _ _ m' hm' g (by rw [hv, hgs1])
            rcases List.mem_map.mp hsrc2 with ⟨grec, hgrec, hgeq⟩
            apply hnot
            apply List.mem_map.mpr
            refine ⟨grec, hgrec, ?_⟩
            have h1 : grec.niche = m'.1 := by simpa using congrArg Prod.fst hgeq
            rw [h1, hk, hniche]
      · intro hnot
        rw [hsent]
        cases hm21 : m.2.1 with
        | none => simp
        | some gs =>
          cases hgs2 : gs.2 with
          | none => simp [hm21, hgs2]
          | some s =>
            exfalso
            have hsrc := mergeOuter_fst_source _ _ m hm gs (by rw [hm21])
            rcases List.mem_map.mp hsrc with ⟨m', hm', hm'eq⟩
            have hk : m'.1 = m.1 := by simpa using congrArg Prod.fst hm'eq
            have hv : m'.2 = gs := by simpa using congrArg Prod.snd hm'eq
            rw [trendM1] at hm'
            have hsrc2 := mergeOuter_snd_source _ _ m' hm' s (by rw [hv, hgs2])
            rcases List.mem_map.mp hsrc2 with ⟨srec, hsrec, hseq⟩
            apply hnot
            apply List.mem_map.mpr
            refine ⟨srec, hsrec, ?_⟩
            have h1 : srec.niche = m'.1 := by simpa using congrArg Prod.fst hseq
            rw [h1, hk, hniche]

/-- C3 witness: the empty-side guard fires on `dfsC3`, and on `dfsW` the
joined output contains the niche `carpet` present in the growth mapping. -/
theorem claim3_witness :
    (calculate_sentiment_score pol0 dfsC3 = [] ∧ calculate_trend_index id pol0 dfsC3 = []) ∧
    (calculate_growth_rate id dfsW ≠ [] ∧
      "carpet" ∈ (calculate_growth_rate id dfsW).map GrowthRecord.niche ∧
      ∃ rec ∈ calculate_trend_index id pol0 dfsW, rec.niche = "carpet") := by
  have hsent : calculate_sentiment_score pol0 dfsC3 = [] := by
    norm_num +decide [calculate_sentiment_score, sentimentResults, sentimentAmazon,
      sentimentTiktok, sentimentReddit, tiktokSentimentVals, redditSentimentVals,
      dfsC3, tiktokA, pol0]
  have hgrowth : calculate_growth_rate id dfsW = [⟨"carpet", 641/1010⟩] := by
    norm_num +decide [calculate_growth_rate, growthResults, growthShopify, growthAmazon,
      growthTiktok, growthReddit, amazonG0, weightedAggregate, growthWeights, nicheLabel,
      seriesMode, sortWith, insertSorted, strLe, charListLt, listMean, seriesMax,
      tiktokTotalEngagement, dfsW, tiktokA, redditA, amazonW, List.dedup, List.count]
  refine ⟨⟨hsent, (claim3_outer_join_guarded id pol0 dfsC3).1 (Or.inr (Or.inl hsent))⟩,
    ?_, ?_, ?_⟩
  · rw [hgrowth]; simp
  · rw [hgrowth]; simp
  · refine (((claim3_outer_join_guarded id pol0 dfsW).2 ?_ ?_ ?_).1 "carpet" ?_)
    · rw [hgrowth]; simp
    · norm_num +decide [calculate_sentiment_score, sentimentResults, sentimentAmazon,
        sentimentTiktok, sentimentReddit, tiktokSentimentVals, redditSentimentVals,
        weightedAggregate, sentimentWeights, nicheLabel, seriesMode, sortWith, insertSorted,
        strLe, charListLt, listMean, dfsW, tiktokA, redditA, amazonW, List.dedup, List.count]
    · norm_num +decide [Engagement.engagement, Engagement.tiktokKeyed, Engagement.redditKeyed,
      Engagement.combinedRows, Engagement.engagementFinals, Engagement.tiktok_engagement,
        Engagement.reddit_engagement, Engagement.tiktokRate, Engagement.redditRate,
        Engagement.normalize, groupbyMean, groupbyMean2, sortWith, insertSorted, strLe,
        pairLe, charListLt, listMean, seriesMin, seriesMax, mergeOuter, pyLower, pyStrip,
        dfsW, tiktokA, redditA, List.dedup, List.count]
    · left
      rw [hgrowth]
      simp

/-- Concrete evaluation of the growth record on `dfsW` (shared by several
witnesses). -/
theorem dfsW_growth_eval : calculate_growth_rate id dfsW = [⟨"carpet", 641/1010⟩] := by
  norm_num +decide [calculate_growth_rate, growthResults, growthShopify, growthAmazon,
    growthTiktok, growthReddit, amazonG0, weightedAggregate, growthWeights, nicheLabel,
    seriesMode, sortWith, insertSorted, strLe, charListLt, listMean, seriesMax,
    tiktokTotalEngagement, dfsW, tiktokA, redditA, amazonW, List.dedup, List.count]

/-- Concrete evaluation of the trend record on `dfsW` (shared by several
witnesses). -/
theorem dfsW_trend_eval : calculate_trend_index id pol0 dfsW =
    [⟨"carpet", 641/1010, 1/2, 24629/404⟩] := by
  norm_num +decide [calculate_trend_index, trendMergedRows, trendM2, trendM1,
    calculate_growth_rate, growthResults, growthShopify, growthAmazon, growthTiktok,
    growthReddit, amazonG0, weightedAggregate, growthWeights, sentimentWeights, nicheLabel,
    seriesMode, calculate_sentiment_score, sentimentResults, sentimentAmazon, sentimentTiktok,
    sentimentReddit, tiktokSentimentVals, redditSentimentVals,
    Engagement.engagement, Engagement.tiktokKeyed, Engagement.redditKeyed,
    Engagement.combinedRows, Engagement.engagementFinals, Engagement.tiktok_engagement,
    Engagement.reddit_engagement, Engagement.tiktokRate, Engagement.redditRate,
    Engagement.normalize, groupbyMean, groupbyMean2, sortWith, insertSorted, strLe, pairLe,
    charListLt, listMean, seriesMin, seriesMax, mergeOuter, pyLower, pyStrip,
    tiktokTotalEngagement, dfsW, tiktokA, redditA, amazonW, pol0, List.dedup, List.count]

/-- C4: every record of the composite output carries a trend index equal
to `clip(100 * (0.35*growth + 0.25*engagement + 0.25*((sentiment+1)/2) +
0.15*0.5), 0, 100)` of its merged row — the 15% term being the constant
placeholder 0.5, not the computed hype score. -/
theorem claim4_trend_formula (f : ℚ → ℚ) (pol : String → Option ℚ) (dfs : Dataframes)
    (rec : TrendRecord) (hrec : rec ∈ calculate_trend_index f pol dfs) :
    ∃ row ∈ trendMergedRows f pol dfs,
      rec.niche = row.niche ∧ rec.growth_rate = row.growth_rate ∧
      rec.sentiment_score = row.sentiment_score ∧
      rec.trend_index = min 100 (max 0 (100 * (0.35 * row.growth_rate +
        0.25 * row.engagement_final + 0.25 * ((row.sentiment_score + 1) / 2) +
        0.15 * (0.5 : ℚ)))) := by
  rw [calculate_trend_index] at hrec
  split at hrec
  · rcases List.mem_map.mp hrec with ⟨row, hrow, hrec'⟩
    refine ⟨row, hrow, ?_, ?_, ?_, ?_⟩
    · rw [← hrec']
    · rw [← hrec']
    · rw [← hrec']
    · rw [← hrec']
      show min 100 (max 0 (_ * 100)) = min 100 (max 0 (100 * _))
      rw [mul_comm]
  · simp at hrec

/-- C4 witness: the concrete trend record of `dfsW` satisfies the clipped
placeholder formula. -/
theorem claim4_witness :
    (⟨"carpet", 641/1010, 1/2, 24629/404⟩ : TrendRecord) ∈ calculate_trend_index id pol0 dfsW ∧
    ∃ row ∈ trendMergedRows id pol0 dfsW,
      "carpet" = row.niche ∧ (641/1010 : ℚ) = row.growth_rate ∧
      (1/2 : ℚ) = row.sentiment_score ∧
      (24629/404 : ℚ) = min 100 (max 0 (100 * (0.35 * row.growth_rate +
        0.25 * row.engagement_final + 0.25 * ((row.sentiment_score + 1) / 2) +
        0.15 * (0.5 : ℚ)))) := by
  have hmem : (⟨"carpet", 641/1010, 1/2, 24629/404⟩ : TrendRecord) ∈
      calculate_trend_index id pol0 dfsW := by
    rw [dfsW_trend_eval]
    exact List.mem_singleton.mpr rfl
  exact ⟨hmem, claim4_trend_formula id pol0 dfsW _ hmem⟩

/-- Zipping a list with its own map pairs each element with its image. -/
theorem zip_self_map {α β : Type} (h : α → β) (l : List α) :
    l.zip (l.map h) = l.map (fun x => (x, h x)) := by
  induction l with
  | nil => rfl
  | cons a as ih => simp [ih]

/-- Concrete evaluation of the hype output on the tie input (engagement
0.5, sentiment table empty): the single raw value 3/10 normalizes to
0.2. -/
theorem hypeC5_eval :
    Hype.calculate_hype_score pol0 ({} : TiktokDF) redditA ({} : AmazonDF) =
      [("carpet", 1/5)] := by
  norm_num +decide [Hype.calculate_hype_score, Hype.hypeMergedRows, Hype.hypeRaws,
    Hype.normalize, calculate_sentiment_score, sentimentResults, sentimentAmazon,
    sentimentTiktok, sentimentReddit, tiktokSentimentVals, redditSentimentVals,
    Engagement.engagement, Engagement.tiktokKeyed, Engagement.redditKeyed,
    Engagement.combinedRows, Engagement.engagementFinals, Engagement.tiktok_engagement,
    Engagement.reddit_engagement, Engagement.redditRate, Engagement.normalize,
    groupbyMean, sortWith, insertSorted, strLe, charListLt, listMean, seriesMin, seriesMax,
    mergeOuter, pyLower, pyStrip, pol0, redditA, List.dedup, List.count]

/-- Concrete evaluation of the raw hype column on the tie input. -/
theorem hypeRawsC5_eval :
    Hype.hypeRaws pol0 ({} : TiktokDF) redditA ({} : AmazonDF) = [3/10] := by
  norm_num +decide [Hype.hypeMergedRows, Hype.hypeRaws,
    calculate_sentiment_score, sentimentResults, sentimentAmazon,
    sentimentTiktok, sentimentReddit, tiktokSentimentVals, redditSentimentVals,
    Engagement.engagement, Engagement.tiktokKeyed, Engagement.redditKeyed,
    Engagement.combinedRows, Engagement.engagementFinals, Engagement.tiktok_engagement,
    Engagement.reddit_engagement, Engagement.redditRate, Engagement.normalize,
    groupbyMean, sortWith, insertSorted, strLe, charListLt, listMean, seriesMin, seriesMax,
    mergeOuter, pyLower, pyStrip, pol0, redditA, List.dedup, List.count]

/-- C5 counterexample: an input whose raw hype values are all tied (one
niche, raw 3/10) yields hype score 0.2, not the 0.6 the claimed shared
min-max normalizer (tie value 0.5) would give. -/
theorem claim5_counterexample :
    Hype.hypeRaws pol0 ({} : TiktokDF) redditA ({} : AmazonDF) = [3/10] ∧
    Hype.calculate_hype_score pol0 ({} : TiktokDF) redditA ({} : AmazonDF) =
      [("carpet", 1/5)] ∧
    ((1:ℚ)/5 ≠ 0.2 + 0.8 * 0.5) := by
  refine ⟨hypeRawsC5_eval, hypeC5_eval, by norm_num⟩

/-- C5 amended: the hype score is `0.2 + 0.8 * (raw - min) / (max - min +
1e-9)` with `raw = 0.6*engagement + 0.8*sentiment` — the module's own
epsilon normalizer, not the shared tie-to-0.5 min-max; when all raw
values are tied every hype score is 0.2. -/
theorem claim5_hype_epsilon_normalizer (pol : String → Option ℚ) (t : TiktokDF)
    (r : RedditPostsDF) (a : AmazonDF) :
    (∀ p ∈ Hype.calculate_hype_score pol t r a,
      ∃ row ∈ Hype.hypeMergedRows pol t r a,
        p.1 = row.1 ∧
        p.2 = 0.2 + 0.8 * ((0.6 * row.2.1 + 0.8 * row.2.2 -
          seriesMin (Hype.hypeRaws pol t r a)) /
          (seriesMax (Hype.hypeRaws pol t r a) - seriesMin (Hype.hypeRaws pol t r a) +
            1 / 1000000000))) ∧
    ((∀ x ∈ Hype.hypeRaws pol t r a, ∀ y ∈ Hype.hypeRaws pol t r a, x = y) →
      ∀ p ∈ Hype.calculate_hype_score pol t r a, p.2 = 1/5) := by
  have main : ∀ p ∈ Hype.calculate_hype_score pol t r a,
      ∃ row ∈ Hype.hypeMergedRows pol t r a,
        p.1 = row.1 ∧
        p.2 = 0.2 + 0.8 * ((0.6 * row.2.1 + 0.8 * row.2.2 -
          seriesMin (Hype.hypeRaws pol t r a)) /
          (seriesMax (Hype.hypeRaws pol t r a) - seriesMin (Hype.hypeRaws pol t r a) +
            1 / 1000000000)) := by
    intro p hp
    rw [Hype.calculate_hype_score, mem_sortWith, Hype.normalize] at hp
    rw [show Hype.hypeRaws pol t r a =
      (Hype.hypeMergedRows pol t r a).map (fun m => 0.6 * m.2.1 + 0.8 * m.2.2) from rfl,
      List.map_map, zip_self_map, List.map_map] at hp
    rcases List.mem_map.mp hp with ⟨row, hrow, hval⟩
    refine ⟨row, hrow, ?_, ?_⟩
    · rw [← hval]
      rfl
    · rw [← hval]
      rfl
  refine ⟨main, ?_⟩
  intro htie p hp
  rcases main p hp with ⟨row, hrow, _, hval⟩
  have hraw : 0.6 * row.2.1 + 0.8 * row.2.2 ∈ Hype.hypeRaws pol t r a := by
    rw [Hype.hypeRaws]
    exact List.mem_map_of_mem _ hrow
  have hne : Hype.hypeRaws pol t r a ≠ [] := List.ne_nil_of_mem hraw
  have hmin : seriesMin (Hype.hypeRaws pol t r a) ∈ Hype.hypeRaws pol t r a :=
    seriesMin_mem _ hne
  have heq : 0.6 * row.2.1 + 0.8 * row.2.2 = seriesMin (Hype.hypeRaws pol t r a) :=
    htie _ hraw _ hmin
  rw [hval, heq]
  norm_num

/-- C5 witness: on the tie input the amended formula applies to the
concrete record and the tie clause gives hype 0.2 = 1/5. -/
theorem claim5_witness :
    (("carpet", (1:ℚ)/5) ∈ Hype.calculate_hype_score pol0 ({} : TiktokDF) redditA ({} : AmazonDF)) ∧
    (∀ x ∈ Hype.hypeRaws pol0 ({} : TiktokDF) redditA ({} : AmazonDF),
      ∀ y ∈ Hype.hypeRaws pol0 ({} : TiktokDF) redditA ({} : AmazonDF), x = y) ∧
    (("carpet", (1:ℚ)/5) : String × ℚ).2 = 1/5 := by
  have hmem : ("carpet", (1:ℚ)/5) ∈
      Hype.calculate_hype_score pol0 ({} : TiktokDF) redditA ({} : AmazonDF) := by
    rw [hypeC5_eval]
    exact List.mem_singleton.mpr rfl
  have htie : ∀ x ∈ Hype.hypeRaws pol0 ({} : TiktokDF) redditA ({} : AmazonDF),
      ∀ y ∈ Hype.hypeRaws pol0 ({} : TiktokDF) redditA ({} : AmazonDF), x = y := by
    rw [hypeRawsC5_eval]
    intro x hx y hy
    simp only [List.mem_singleton] at hx hy
    rw [hx, hy]
  exact ⟨hmem, htie,
    (claim5_hype_epsilon_normalizer pol0 ({} : TiktokDF) redditA ({} : AmazonDF)).2 htie _ hmem⟩

/-- The second component of a zip member belongs to the second list. -/
theorem snd_mem_of_mem_zip {α β : Type} {p : α × β} {l1 : List α} {l2 : List β}
    (h : p ∈ l1.zip l2) : p.2 ∈ l2 := by
  have h' : (p.1, p.2) ∈ l1.zip l2 := by simpa using h
  exact (List.of_mem_zip h').2

/-- The bounded output ranges of the five composite metrics. -/
def RangesHold (f : ℚ → ℚ) (pol : String → Option ℚ) (dfs : Dataframes) : Prop :=
  (∀ rec ∈ calculate_growth_rate f dfs, 0 ≤ rec.growth_rate ∧ rec.growth_rate ≤ 1) ∧
  (∀ rec ∈ calculate_sentiment_score pol dfs,
    -1 ≤ rec.sentiment_score ∧ rec.sentiment_score ≤ 1) ∧
  (∀ p ∈ Engagement.engagement dfs.tiktok dfs.redditPosts, 0 ≤ p.2 ∧ p.2 ≤ 1) ∧
  (∀ p ∈ Hype.calculate_hype_score pol dfs.tiktok dfs.redditPosts dfs.amazon,
    1/5 ≤ p.2 ∧ p.2 ≤ 1) ∧
  (∀ rec ∈ calculate_trend_index f pol dfs, 0 ≤ rec.trend_index ∧ rec.trend_index ≤ 100)

/-- Every metric maps the all-empty input to the empty output. -/
def EmptyInputEmptyOutput (f : ℚ → ℚ) (pol : String → Option ℚ) : Prop :=
  calculate_growth_rate f {} = [] ∧
  calculate_sentiment_score pol {} = [] ∧
  Engagement.engagement ({} : TiktokDF) ({} : RedditPostsDF) = [] ∧
  Hype.calculate_hype_score pol ({} : TiktokDF) ({} : RedditPostsDF) ({} : AmazonDF) = [] ∧
  calculate_trend_index f pol {} = []

/-- C6 counterexample: a rating outside the 1–5 scale (10) drives the
growth rate to 3.5, outside the claimed [0, 1] range — the rating
fallback of the niche-level Amazon block is not clipped above. -/
theorem claim6_counterexample :
    calculate_growth_rate id dfsC6 = [⟨"Overall", 7/2⟩] ∧ ¬((7:ℚ)/2 ≤ 1) := by
  constructor
  · norm_num +decide [calculate_growth_rate, growthResults, growthShopify, growthAmazon,
      growthTiktok, growthReddit, amazonG0, weightedAggregate, growthWeights, nicheLabel,
      listMean, seriesMax, dfsC6]
  · norm_num

/-- C6 amended: with amazon ratings in [1, 5], nonnegative counts, a
[-1, 1]-valued lexicon and a log1p-shaped scaler, every growth rate is in
[0, 1], every sentiment in [-1, 1], every engagement in [0, 1], every
hype score in [0.2, 1], every trend index in [0, 100]; and all five
metrics map the all-empty input to empty output. -/
theorem claim6_bounded_ranges (f : ℚ → ℚ) (pol : String → Option ℚ) (dfs : Dataframes)
    (hf : Log1pLike f) (hpol : PolarityLike pol) (hv : ValidInput dfs) :
    RangesHold f pol dfs ∧ EmptyInputEmptyOutput f pol := by
  constructor
  · refine ⟨?_, ?_, ?_, ?_, ?_⟩
    · -- growth rate in [0, 1]
      intro rec hrec
      rw [calculate_growth_rate] at hrec
      split at hrec
      · simp only [List.mem_singleton] at hrec
        subst hrec
        exact weightedAggregate_bounds growthWeights (growthResults f dfs) 0 1 le_rfl
          zero_le_one (fun p _ => growthWeights_nonneg p.1) (growthResults_bounds f hf dfs hv)
      · simp at hrec
    · -- sentiment in [-1, 1]
      intro rec hrec
      rw [calculate_sentiment_score] at hrec
      split at hrec
      · simp only [List.mem_singleton] at hrec
        subst hrec
        exact weightedAggregate_bounds sentimentWeights (sentimentResults pol dfs) (-1) 1
          (by norm_num) zero_le_one (fun p _ => sentimentWeights_nonneg p.1)
          (sentimentResults_bounds pol hpol dfs hv)
      · simp at hrec
    · -- engagement in [0, 1]
      intro p hp
      rw [Engagement.engagement] at hp
      split at hp
      · simp at hp
      · exact engagement_normalize_bounds _ _ (snd_mem_of_mem_zip hp)
    · -- hype in [0.2, 1]
      intro p hp
      rw [Hype.calculate_hype_score, mem_sortWith] at hp
      rcases List.mem_map.mp hp with ⟨q, hq, hval⟩
      have h2 : q.2 ∈ Hype.normalize (Hype.hypeRaws pol dfs.tiktok dfs.redditPosts dfs.amazon) :=
        snd_mem_of_mem_zip hq
      have := hype_normalize_bounds _ _ h2
      rw [← hval]
      exact this
    · -- trend index in [0, 100]
      intro rec hrec
      rw [calculate_trend_index] at hrec
      split at hrec
      · rcases List.mem_map.mp hrec with ⟨row, _, hval⟩
        rw [← hval]
        constructor
        · exact le_min (by norm_num) (le_max_left 0 _)
        · exact min_le_left 100 _
      · simp at hrec
  · exact ⟨rfl, rfl, rfl, rfl, rfl⟩

/-- C6 witness: the assumptions hold for `id`, the always-failing lexicon
and the concrete valid input `dfsW`, so all ranges hold there. -/
theorem claim6_witness :
    Log1pLike id ∧ PolarityLike pol0 ∧ ValidInput dfsW ∧
    (RangesHold id pol0 dfsW ∧ EmptyInputEmptyOutput id pol0) := by
  have h1 : Log1pLike id := ⟨rfl, fun _ _ _ h => h, fun _ h => h⟩
  have h2 : PolarityLike pol0 := by
    intro s q h
    simp [pol0] at h
  have h3 : ValidInput dfsW := by
    refine ⟨?_, ?_, ?_, ?_, ?_, ?_⟩ <;>
      (intro r hr
       simp only [dfsW, amazonW, tiktokA, List.mem_singleton] at hr
       subst hr
       intro x hx
       simp_all
       try norm_num [← hx])
  exact ⟨h1, h2, h3, claim6_bounded_ranges id pol0 dfsW h1 h2 h3⟩

/-- Every key of a grouped mean comes from the input pairs. -/
theorem groupbyMean_keys (pairs : List (String × ℚ)) (p : String × ℚ)
    (hp : p ∈ groupbyMean pairs) : p.1 ∈ pairs.map Prod.fst := by
  rw [groupbyMean] at hp
  rcases List.mem_map.mp hp with ⟨k, hk, hval⟩
  have h1 : p.1 = k := by rw [← hval]
  rw [h1]
  rw [mem_sortWith] at hk
  exact List.mem_dedup.mp hk

/-- Every key pair of a two-key grouped mean comes from the input pairs. -/
theorem groupbyMean2_keys (pairs : List ((String × String) × ℚ)) (p : (String × String) × ℚ)
    (hp : p ∈ groupbyMean2 pairs) : p.1 ∈ pairs.map Prod.fst := by
  rw [groupbyMean2] at hp
  rcases List.mem_map.mp hp with ⟨k, hk, hval⟩
  have h1 : p.1 = k := by rw [← hval]
  rw [h1]
  rw [mem_sortWith] at hk
  exact List.mem_dedup.mp hk

/-- Concrete evaluation of the TikTok engagement extractor on the frame
with labels `Carpets` and `CARPET` (shared by the C7 theorems). -/
theorem tiktokC7_eval :
    Engagement.tiktok_engagement tiktokC7 = [("carpet", 1/5), ("carpets", 1/10)] := by
  norm_num +decide [Engagement.tiktok_engagement, Engagement.tiktokRate, groupbyMean,
    groupbyMean2, sortWith, insertSorted, strLe, pairLe, charListLt, listMean,
    (show pyLower (pyStrip "Carpets") = "carpets" by decide),
    (show pyLower (pyStrip "CARPET") = "carpet" by decide),
    tiktokC7, List.dedup, List.count, List.filterMap_cons, List.filter_cons]

/-- C7 counterexample: `Carpets` and `CARPET` both normalize to `carpet`
under `normalize_niche`, yet the engagement extractor keeps their rows as
two distinct niches (`carpets` vs `carpet`) — the pipeline does not
aggregate them together everywhere. -/
theorem claim7_counterexample :
    normalize_niche "Carpets" = normalize_niche "CARPET" ∧
    Engagement.tiktok_engagement tiktokC7 = [("carpet", 1/5), ("carpets", 1/10)] ∧
    ("carpet" : String) ≠ "carpets" := by
  exact ⟨by decide, tiktokC7_eval, by decide⟩

/-- C7 amended: the three labels do collapse to the single key `carpet`
under `normalize_niche`; but the engagement extractor keys rows only by
strip + lowercase (no synonym lookup), so `Carpets`-rows keep the
distinct key `carpets`. -/
theorem claim7_synonym_collapse_scope :
    (normalize_niche "Carpets" = "carpet" ∧ normalize_niche "carpet " = "carpet" ∧
      normalize_niche "CARPET" = "carpet" ∧
      pyLower (pyStrip "Carpets") = "carpets" ∧ ("carpets" : String) ≠ "carpet") ∧
    (∀ (df : TiktokDF), df.hasNiche = true →
      ∀ p ∈ Engagement.tiktok_engagement df,
        ∃ r ∈ df.rows, ∃ n, r.niche = some n ∧ p.1 = pyLower (pyStrip n)) := by
  constructor
  · exact ⟨by decide, by decide, by decide, by decide, by decide⟩
  · intro df hdf p hp
    rw [Engagement.tiktok_engagement] at hp
    split at hp
    · simp at hp
    · split at hp
      · simp at hp
      · split at hp
        case isTrue h => rw [hdf] at h; simp at h
        case isFalse =>
          split at hp
          · simp at hp
          · have hk := groupbyMean_keys _ _ hp
            simp only [List.map_map] at hk
            rcases List.mem_map.mp hk with ⟨q, hqmem, hq⟩
            have hk2 := groupbyMean2_keys _ _ hqmem
            rcases List.mem_map.mp hk2 with ⟨e, hemem, he⟩
            rcases List.mem_filterMap.mp hemem with ⟨r, hr, heq⟩
            refine ⟨r, hr, ?_⟩
            cases hn : r.niche with
            | none => rw [hn] at heq; simp at heq
            | some n =>
              cases hvid : r.video_id with
              | none => rw [hn, hvid] at heq; simp at heq
              | some v =>
                rw [hn, hvid] at heq
                simp only [Option.some.injEq] at heq
                refine ⟨n, rfl, ?_⟩
                have hq' : q.1.1 = p.1 := by simpa using hq
                have : e.1 = (pyLower (pyStrip n), v) := by rw [← heq]
                rw [← hq', ← he, this]

/-- C7 witness: on the concrete frame the extractor's key `carpet` is the
strip-lowercase (not synonym-collapsed) image of the raw label
`CARPET`. -/
theorem claim7_witness :
    tiktokC7.hasNiche = true ∧
    (("carpet", (1:ℚ)/5) ∈ Engagement.tiktok_engagement tiktokC7) ∧
    ∃ r ∈ tiktokC7.rows, ∃ n, r.niche = some n ∧
      ("carpet", (1:ℚ)/5).1 = pyLower (pyStrip n) := by
  have hmem : ("carpet", (1:ℚ)/5) ∈ Engagement.tiktok_engagement tiktokC7 := by
    rw [tiktokC7_eval]
    simp
  exact ⟨rfl, hmem, claim7_synonym_collapse_scope.2 tiktokC7 rfl _ hmem⟩

/-- C8: the shared min-max normalizer maps a constant series to 0.5
everywhere and otherwise rescales linearly onto [0,1] with a nonzero
denominator — it never divides by zero. -/
theorem claim8_minmax_tie (xs : List ℚ) (hne : xs ≠ []) :
    ((∀ x ∈ xs, ∀ y ∈ xs, x = y) →
      Engagement.normalize xs = List.replicate xs.length (1/2)) ∧
    (¬(∀ x ∈ xs, ∀ y ∈ xs, x = y) →
      seriesMax xs - seriesMin xs ≠ 0 ∧
      Engagement.normalize xs =
        xs.map (fun x => (x - seriesMin xs) / (seriesMax xs - seriesMin xs))) := by
  have hemp : ¬(xs.isEmpty = true) := by simpa [List.isEmpty_iff] using hne
  constructor
  · intro htie
    rw [Engagement.normalize, if_neg hemp,
      if_pos ((seriesMax_eq_seriesMin_iff xs hne).mpr htie)]
  · intro hnotie
    have hneq : seriesMax xs ≠ seriesMin xs :=
      fun h => hnotie ((seriesMax_eq_seriesMin_iff xs hne).mp h)
    refine ⟨fun h0 => hneq (by linarith [sub_eq_zero.mp h0]), ?_⟩
    rw [Engagement.normalize, if_neg hemp, if_neg hneq]

/-- C8 witness: `normalize [5,5,5] = [0.5, 0.5, 0.5]`. -/
theorem claim8_witness :
    (([5, 5, 5] : List ℚ) ≠ []) ∧
    (∀ x ∈ ([5, 5, 5] : List ℚ), ∀ y ∈ ([5, 5, 5] : List ℚ), x = y) ∧
    Engagement.normalize [5, 5, 5] = [1/2, 1/2, 1/2] := by
  have hne : ([5, 5, 5] : List ℚ) ≠ [] := by simp
  have htie : ∀ x ∈ ([5, 5, 5] : List ℚ), ∀ y ∈ ([5, 5, 5] : List ℚ), x = y := by
    intro x hx y hy
    simp only [List.mem_cons, List.not_mem_nil, or_false] at hx hy
    rcases hx with hx | hx | hx <;> rcases hy with hy | hy | hy <;> rw [hx, hy]
  refine ⟨hne, htie, ?_⟩
  rw [(claim8_minmax_tie [5, 5, 5] hne).1 htie]
  rfl

/-- C9 counterexample: a non-empty Amazon frame lacking both the
`reviews_count` and the `rating` columns still produces a (zero-valued)
growth record, not the empty mapping the claim promises for a dataset
that lacks the columns the metric needs. -/
theorem claim9_counterexample :
    calculate_growth_rate id dfsC9 = [⟨"Overall", 0⟩] ∧
    ([⟨"Overall", 0⟩] : List GrowthRecord) ≠ [] := by
  constructor
  · norm_num +decide [calculate_growth_rate, growthResults, growthShopify, growthAmazon,
      growthTiktok, growthReddit, amazonG0, weightedAggregate, growthWeights, nicheLabel,
      dfsC9]
  · simp

/-- A `filterMap` whose function always succeeds is a `map`. -/
theorem filterMap_some_eq_map {α β : Type} (g : α → β) (l : List α) :
    l.filterMap (fun a => some (g a)) = l.map g := by
  induction l with
  | nil => rfl
  | cons x xs ih => simp [List.filterMap_cons, ih]

/-- Deduplicating a constant non-empty list leaves one element. -/
theorem dedup_const_of_ne_nil {α β : Type} [DecidableEq β] (b : β) (l : List α) (h : l ≠ []) :
    (l.map (fun _ => b)).dedup = [b] := by
  induction l with
  | nil => exact absurd rfl h
  | cons x xs ih =>
    cases xs with
    | nil => simp
    | cons y ys =>
      rw [List.map_cons, List.dedup_cons_of_mem (by simp)]
      exact ih (by simp)

/-- Grouping a non-empty table whose every row is `("overall", 0)`
yields the single zero record. -/
theorem groupbyMean_const_zero {α : Type} (rows : List α) (h : rows ≠ []) :
    groupbyMean (rows.map (fun _ => ("overall", (0:ℚ)))) = [("overall", 0)] := by
  rw [groupbyMean]
  have hfst : (rows.map (fun _ => ("overall", (0:ℚ)))).map Prod.fst =
      rows.map (fun _ => "overall") := by
    rw [List.map_map]
    rfl
  rw [hfst, dedup_const_of_ne_nil _ rows h]
  have hsort : sortWith strLe ["overall"] = ["overall"] := rfl
  rw [hsort]
  simp only [List.map_cons, List.map_nil]
  have hfilter : (rows.map (fun _ => ("overall", (0:ℚ)))).filter
      (fun p => p.1 == "overall") = rows.map (fun _ => ("overall", (0:ℚ))) := by
    apply List.filter_eq_self.mpr
    intro p hp
    rcases List.mem_map.mp hp with ⟨_, _, rfl⟩
    simp
  rw [hfilter]
  have hsnd : (rows.map (fun _ => ("overall", (0:ℚ)))).map Prod.snd =
      rows.map (fun _ => (0:ℚ)) := by
    rw [List.map_map]
    rfl
  rw [hsnd]
  have hz : listMean (rows.map (fun _ => (0:ℚ))) = 0 := by
    rw [listMean]
    have : (rows.map (fun _ => (0:ℚ))).sum = 0 := by
      rw [List.map_const', List.sum_replicate]
      simp
    rw [this, zero_div]
  rw [hz]

/-- A non-empty Reddit posts frame lacking both the `upvotes` and the
`comments_count` column is scored with zero-filled columns
(`engagement.py:68-70`): one zero record under the synthetic niche
`overall`, not an empty result. -/
theorem reddit_engagement_no_columns (rows : List RedditPostRow) (hne : rows ≠ []) :
    Engagement.reddit_engagement { rows := rows } = [("overall", 0)] := by
  rw [Engagement.reddit_engagement,
    if_neg (by simpa [List.isEmpty_iff] using hne)]
  have hrate : ∀ r : RedditPostRow, Engagement.redditRate { rows := rows } r = 0 := by
    intro r
    rw [Engagement.redditRate]
    norm_num
  simp only [hrate, Bool.false_eq_true, if_false, filterMap_some_eq_map]
  exact groupbyMean_const_zero rows hne

/-- The zero Reddit record then makes the combined engagement mapping the
non-empty `[("overall", 0.5)]` (the sole blended value normalizes to the
tie value 0.5). -/
theorem engagement_reddit_no_columns (rows : List RedditPostRow) (hne : rows ≠ []) :
    Engagement.engagement {} { rows := rows } = [("overall", 1/2)] := by
  have h1 := reddit_engagement_no_columns rows hne
  rw [Engagement.engagement, if_neg (by simp [h1])]
  norm_num +decide [Engagement.combinedRows, Engagement.tiktokKeyed, Engagement.redditKeyed,
    Engagement.engagementFinals, Engagement.tiktok_engagement, h1, Engagement.normalize,
    mergeOuter, seriesMin, seriesMax, listMean,
    (show pyLower (pyStrip "overall") = "overall" by decide)]

/-- C9 amended: with every platform dataset empty all composite metrics
(and both product-level variants) return empty results with no failure.
A dataset lacking needed columns never raises either, but does not always
yield an empty result: the tiktok engagement extractor does return empty
when its engagement columns are missing, while a non-empty amazon frame
lacking both `reviews_count` and `rating` contributes a zero sub-score
(niche-level growth returns a zero record), and a non-empty reddit posts
frame lacking `upvotes` and `comments_count` is scored with zero-filled
columns, so reddit engagement returns a zero record and the combined
engagement mapping becomes the non-empty `[("overall", 0.5)]`. -/
theorem claim9_empty_and_missing_columns (f : ℚ → ℚ) (pol : String → Option ℚ) :
    EmptyInputEmptyOutput f pol ∧
    (∀ nf, calculate_product_level_shopify_growth f {} nf = []) ∧
    (∀ nf, calculate_product_level_amazon_growth f {} nf = []) ∧
    (∀ (rows : List TiktokRow), Engagement.tiktok_engagement { rows := rows } = []) ∧
    (∀ (rows : List AmazonRow), rows ≠ [] →
      calculate_growth_rate f { amazon := { rows := rows } } = [⟨"Overall", 0⟩]) ∧
    (∀ (rows : List RedditPostRow), rows ≠ [] →
      Engagement.reddit_engagement { rows := rows } = [("overall", 0)] ∧
      Engagement.engagement {} { rows := rows } = [("overall", 1/2)]) := by
  refine ⟨⟨rfl, rfl, rfl, rfl, rfl⟩, ?_, ?_, ?_, ?_, ?_⟩
  · intro nf
    rw [calculate_product_level_shopify_growth]
    split
    · rfl
    · rfl
  · intro nf
    rw [calculate_product_level_amazon_growth]
    split
    · rfl
    · rfl
  · intro rows
    rw [Engagement.tiktok_engagement]
    split
    · rfl
    · rfl
  · intro rows hne
    have hres : growthResults f { amazon := { rows := rows } } = [("amazon", 0)] := by
      rw [growthResults, growthShopify, growthAmazon, growthTiktok, growthReddit]
      simp [List.isEmpty_iff, hne, amazonG0]
    rw [calculate_growth_rate, hres, if_pos (by simp)]
    norm_num +decide [weightedAggregate, growthWeights, nicheLabel]
  · intro rows hne
    exact ⟨reddit_engagement_no_columns rows hne, engagement_reddit_no_columns rows hne⟩

/-- C9 witness: the Amazon-without-columns clause at a one-row frame and
the Reddit-without-columns clause at a one-row frame. -/
theorem claim9_witness :
    ([({} : AmazonRow)] ≠ []) ∧
    calculate_growth_rate id { amazon := { rows := [{}] } } = [⟨"Overall", 0⟩] ∧
    ([({} : RedditPostRow)] ≠ []) ∧
    Engagement.reddit_engagement { rows := [({} : RedditPostRow)] } = [("overall", 0)] ∧
    Engagement.engagement {} { rows := [({} : RedditPostRow)] } = [("overall", 1/2)] := by
  have hne : [({} : AmazonRow)] ≠ [] := by simp
  have hner : [({} : RedditPostRow)] ≠ [] := by simp
  have hr := (claim9_empty_and_missing_columns id pol0).2.2.2.2.2 [{}] hner
  exact ⟨hne, (claim9_empty_and_missing_columns id pol0).2.2.2.2.1 [{}] hne,
    hner, hr.1, hr.2⟩

/-- The head of `seriesMode` is a most frequent value of the series. -/
theorem seriesMode_head_max (xs : List String) (m : String) (rest : List String)
    (h : seriesMode xs = m :: rest) : ∀ v ∈ xs, xs.count v ≤ xs.count m := by
  intro v hv
  have hm : m ∈ seriesMode xs := by
    rw [h]
    exact List.mem_cons_self m rest
  rw [seriesMode] at hm
  have hcount : xs.count m =
      ((sortWith strLe xs.dedup).map (fun v => xs.count v)).foldl max 0 := by
    have := List.of_mem_filter hm
    simpa using this
  rw [hcount]
  apply mem_le_foldl_max
  apply List.mem_map_of_mem
  rw [mem_sortWith]
  exact List.mem_dedup.mpr hv

/-- C10: niche-level growth and sentiment each return at most one record;
every returned record is keyed by `nicheLabel` — the first mode (a most
frequent value) of the reddit-posts `niche` column when that frame is
non-empty and has the column, and `"Overall"` otherwise. -/
theorem claim10_single_record (f : ℚ → ℚ) (pol : String → Option ℚ) (dfs : Dataframes) :
    (calculate_growth_rate f dfs).length ≤ 1 ∧
    (calculate_sentiment_score pol dfs).length ≤ 1 ∧
    (∀ rec ∈ calculate_growth_rate f dfs, rec.niche = nicheLabel dfs.redditPosts) ∧
    (∀ rec ∈ calculate_sentiment_score pol dfs, rec.niche = nicheLabel dfs.redditPosts) ∧
    ((dfs.redditPosts.rows = [] ∨ dfs.redditPosts.hasNiche = false) →
      nicheLabel dfs.redditPosts = "Overall") ∧
    (∀ (m : String) (rest : List String),
      seriesMode (dfs.redditPosts.rows.filterMap (fun r => r.niche)) = m :: rest →
      ∀ v ∈ dfs.redditPosts.rows.filterMap (fun r => r.niche),
        (dfs.redditPosts.rows.filterMap (fun r => r.niche)).count v ≤
        (dfs.redditPosts.rows.filterMap (fun r => r.niche)).count m) := by
  refine ⟨?_, ?_, ?_, ?_, ?_, ?_⟩
  · rw [calculate_growth_rate]
    split <;> simp
  · rw [calculate_sentiment_score]
    split <;> simp
  · intro rec hrec
    rw [calculate_growth_rate] at hrec
    split at hrec
    · simp only [List.mem_singleton] at hrec
      rw [hrec]
    · simp at hrec
  · intro rec hrec
    rw [calculate_sentiment_score] at hrec
    split at hrec
    · simp only [List.mem_singleton] at hrec
      rw [hrec]
    · simp at hrec
  · intro h
    rw [nicheLabel]
    rcases h with h | h <;> simp [h, List.isEmpty_iff]
  · intro m rest h
    exact seriesMode_head_max _ m rest h

/-- C10 witness: on `dfsW` the single growth record is keyed by the mode
`carpet` of the reddit niche column. -/
theorem claim10_witness :
    (calculate_growth_rate id dfsW).length ≤ 1 ∧
    ((⟨"carpet", 641/1010⟩ : GrowthRecord) ∈ calculate_growth_rate id dfsW) ∧
    (⟨"carpet", 641/1010⟩ : GrowthRecord).niche = nicheLabel dfsW.redditPosts ∧
    seriesMode (dfsW.redditPosts.rows.filterMap (fun r => r.niche)) = ["carpet"] ∧
    (∀ v ∈ dfsW.redditPosts.rows.filterMap (fun r => r.niche),
      (dfsW.redditPosts.rows.filterMap (fun r => r.niche)).count v ≤
      (dfsW.redditPosts.rows.filterMap (fun r => r.niche)).count "carpet") := by
  have hmem : (⟨"carpet", 641/1010⟩ : GrowthRecord) ∈ calculate_growth_rate id dfsW := by
    rw [dfsW_growth_eval]
    exact List.mem_singleton.mpr rfl
  have hmode : seriesMode (dfsW.redditPosts.rows.filterMap (fun r => r.niche)) = ["carpet"] := by
    decide
  exact ⟨(claim10_single_record id pol0 dfsW).1, hmem,
    (claim10_single_record id pol0 dfsW).2.2.1 _ hmem, hmode,
    (claim10_single_record id pol0 dfsW).2.2.2.2.2 "carpet" [] hmode⟩

end Hypeon
